import Mathlib

/-!
# Verification of the knee-assessment acquisition software

A shallow embedding, in Lean 4, of the core data model and operations of the
`proyecto_rodilla` application, together with proofs of the specified
properties.

Conventions used throughout:

* Python `bytes` / `bytearray` values are `List Nat`, each element < 256.
* Python (IEEE-754 double) arithmetic is modelled exactly over `ℚ` (or `ℝ`
  where transcendental functions are involved); properties stated by the
  specification "within floating-point tolerance" are proved as exact
  equalities of the corresponding rational/real expressions.
* Python exceptions (`ZeroDivisionError`, `ValueError`, `struct.error`, ...)
  are modelled with `Option`/`Except` result types.
* Mutation of `self` / module-level state is modelled by explicit state
  passing: an operation takes the state and returns the new state.

The sections below follow the source modules:
`core/frame_decoder.py`, `core/signal_processing.py`, `config/settings.py`,
`core/session_loader.py`, `gui/calibration_dialog.py`.
-/

/-! ## `core/frame_decoder.py` — CRC16 and the binary frame decoder -/

/-- One shift-and-conditionally-xor round of the CRC16 inner loop:
`crc = (crc << 1) ^ 0x1021 if crc & 0x8000 else crc << 1`.
As in the Python source, the running value is *not* masked between rounds
(Python integers are unbounded; so is `Nat`). -/
def crcRound (crc : Nat) : Nat :=
  if crc &&& 0x8000 ≠ 0 then ((crc <<< 1) ^^^ 0x1021) else (crc <<< 1)

/-- Per-byte step of `crc16_ccitt`: `crc ^= byte << 8`, eight `crcRound`s,
then `crc &= 0xFFFF` (the mask is applied once per byte, after the eight
rounds, exactly as in the source). -/
def crcUpdate (crc b : Nat) : Nat :=
  (crcRound (crcRound (crcRound (crcRound (crcRound (crcRound (crcRound (crcRound
    (crc ^^^ (b <<< 8)))))))))) &&& 0xFFFF

/-- `crc16_ccitt(data, initial_crc=0xFFFF)` — CRC16 CCITT-FALSE
(polynomial 0x1021, initial register 0xFFFF, MSB-first, no reflection). -/
def crc16_ccitt (data : List Nat) (initial_crc : Nat) : Nat :=
  data.foldl crcUpdate initial_crc

/-- Protocol constant `FRAME_TYPE_EMG = 0x01` (config defaults). -/
def FRAME_TYPE_EMG : Nat := 0x01

/-- Protocol constant `FRAME_TYPE_IMU = 0x02` (config defaults). -/
def FRAME_TYPE_IMU : Nat := 0x02

/-- Protocol constant `PREAMBLE = bytes([0xA5, 0x5A])` (config defaults). -/
def PREAMBLE : List Nat := [0xA5, 0x5A]

/-- ADC reference voltage `VREF = 3.275` (config defaults), as a rational. -/
def VREF : ℚ := 3275 / 1000

/-- Programmable-gain setting `PGA_GAIN = 1` (config defaults). -/
def PGA_GAIN : ℚ := 1

/-- `ADC_RESOLUTION = 2 ** 23` (config defaults). -/
def ADC_RESOLUTION : ℚ := 2 ^ 23

/-- Little-endian decode of a `uint16` from two bytes (`struct.unpack '<H'`). -/
def le16 (b0 b1 : Nat) : Nat := b0 + 256 * b1

/-- Little-endian decode of a `uint32` from four bytes (`struct.unpack '<I'`). -/
def le32 (b0 b1 b2 b3 : Nat) : Nat :=
  b0 + 256 * b1 + 65536 * b2 + 16777216 * b3

/-- Reinterpret a `uint32` value as a signed `int32`
(`struct.unpack '<i'` of the same four little-endian bytes). -/
def int32ofLE (v : Nat) : Int :=
  if v < 2 ^ 31 then (v : Int) else (v : Int) - 2 ^ 32

/-- Reinterpret a `uint16` value as a signed `int16`
(`struct.unpack '<h'` of the same two little-endian bytes). -/
def int16ofLE (v : Nat) : Int :=
  if v < 2 ^ 15 then (v : Int) else (v : Int) - 2 ^ 16

/-- Voltage conversion of a raw EMG sample:
`(raw / ADC_RESOLUTION) * (VREF / PGA_GAIN)` (frame_decoder.py lines 94-95). -/
def voltage (raw : Int) : ℚ :=
  ((raw : ℚ) / ADC_RESOLUTION) * (VREF / PGA_GAIN)

/-- A decoded frame: the tagged dictionary returned by
`FrameDecoder._decode_payload` (`'type': 'EMG'` or `'type': 'IMU'`). -/
inductive Frame where
  | emg (seq : Nat) (timestamp_us : Nat) (ch0 ch1 : ℚ)
  | imu (seq : Nat) (timestamp_us : Nat) (ax ay az gx gy gz : ℚ)
deriving DecidableEq, Repr

/-- `FrameDecoder._decode_payload(frame_type, payload)`.
`struct.unpack` demands the exact payload length (14 for `'<HIii'`,
18 for `'<HIhhhhhh'`); a length mismatch raises `struct.error`, which the
source converts to `None`.  Field offsets follow the little-endian layouts
`uint16 seq, uint32 timestamp, int32 raw_a, int32 raw_b` (EMG) and
`uint16 seq, uint32 timestamp, int16 ax ay az gx gy gz` (IMU); IMU scaling is
`accel/16384.0` and `gyro/131.0` per the MPU6050 datasheet comment. -/
def decodePayload (frame_type : Nat) (payload : List Nat) : Option Frame :=
  if frame_type = FRAME_TYPE_EMG then
    if payload.length = 14 then
      let seq := le16 (payload.getD 0 0) (payload.getD 1 0)
      let ts := le32 (payload.getD 2 0) (payload.getD 3 0) (payload.getD 4 0) (payload.getD 5 0)
      let raw_a := int32ofLE (le32 (payload.getD 6 0) (payload.getD 7 0) (payload.getD 8 0) (payload.getD 9 0))
      let raw_b := int32ofLE (le32 (payload.getD 10 0) (payload.getD 11 0) (payload.getD 12 0) (payload.getD 13 0))
      some (.emg seq ts (voltage raw_a) (voltage raw_b))
    else none
  else if frame_type = FRAME_TYPE_IMU then
    if payload.length = 18 then
      let seq := le16 (payload.getD 0 0) (payload.getD 1 0)
      let ts := le32 (payload.getD 2 0) (payload.getD 3 0) (payload.getD 4 0) (payload.getD 5 0)
      let ax := int16ofLE (le16 (payload.getD 6 0) (payload.getD 7 0))
      let ay := int16ofLE (le16 (payload.getD 8 0) (payload.getD 9 0))
      let az := int16ofLE (le16 (payload.getD 10 0) (payload.getD 11 0))
      let gx := int16ofLE (le16 (payload.getD 12 0) (payload.getD 13 0))
      let gy := int16ofLE (le16 (payload.getD 14 0) (payload.getD 15 0))
      let gz := int16ofLE (le16 (payload.getD 16 0) (payload.getD 17 0))
      some (.imu seq ts ((ax : ℚ) / 16384) ((ay : ℚ) / 16384) ((az : ℚ) / 16384)
        ((gx : ℚ) / 131) ((gy : ℚ) / 131) ((gz : ℚ) / 131))
    else none
  else none

/-- `self.buffer.find(PREAMBLE)` — index of the first occurrence of the
two-byte subsequence `0xA5 0x5A`, `none` when absent (Python returns `-1`). -/
def findPreamble : List Nat → Option Nat
  | a :: b :: rest =>
    if a = 0xA5 ∧ b = 0x5A then some 0
    else (findPreamble (b :: rest)).map (· + 1)
  | _ => none

/-- The `while len(self.buffer) >= 7` loop body of `FrameDecoder.feed`,
as a fuel-indexed recursion (each loop iteration that does not exit consumes
at least two buffered bytes, so `buffer length + 1` fuel always suffices; the
`0` case is never reached from `FrameDecoder.feed`).  Returns the final
buffer and the decoded frames in order of completion. -/
def feedLoop : Nat → List Nat → List Nat × List Frame
  | 0, buf => (buf, [])
  | fuel + 1, buf =>
    if buf.length < 7 then (buf, [])
    else
      match findPreamble buf with
      | none => (buf.drop (buf.length - 1), [])   -- keep only the trailing byte
      | some idx =>
        let buf1 := buf.drop idx                  -- discard bytes before the preamble
        if buf1.length < 7 then (buf1, [])
        else
          let frame_type := buf1.getD 2 0
          let payload_size? : Option Nat :=
            if frame_type = FRAME_TYPE_EMG then some 14
            else if frame_type = FRAME_TYPE_IMU then some 18
            else none
          match payload_size? with
          | none => feedLoop fuel (buf1.drop 2)   -- unknown type: drop 2 bytes, retry
          | some payload_size =>
            let total_frame_size := 2 + 1 + payload_size + 2
            if buf1.length < total_frame_size then (buf1, [])
            else
              let frame_data := buf1.take total_frame_size
              let crc_received :=
                le16 (frame_data.getD (total_frame_size - 2) 0)
                     (frame_data.getD (total_frame_size - 1) 0)
              let crc_calculated :=
                crc16_ccitt ((frame_data.drop 2).take (total_frame_size - 4)) 0xFFFF
              let rest := feedLoop fuel (buf1.drop total_frame_size)
              if crc_received = crc_calculated then
                match decodePayload frame_type ((frame_data.drop 3).take payload_size) with
                | some fr => (rest.1, fr :: rest.2)
                | none => rest
              else rest

/-- The decoder state: `self.buffer` (a `bytearray`, empty at construction). -/
structure FrameDecoder where
  buffer : List Nat
deriving DecidableEq, Repr

/-- `FrameDecoder.feed(data)`: extend the buffer and run the decode loop.
Returns the new decoder state together with the list of decoded frames. -/
def FrameDecoder.feed (d : FrameDecoder) (data : List Nat) : FrameDecoder × List Frame :=
  let buf := d.buffer ++ data
  let r := feedLoop (buf.length + 1) buf
  (⟨r.1⟩, r.2)

/-- Feed a list of chunks to the decoder one `feed` call at a time,
concatenating the decoded frames of all calls. -/
def feedMany (d : FrameDecoder) : List (List Nat) → FrameDecoder × List Frame
  | [] => (d, [])
  | c :: cs =>
    let r := d.feed c
    let r2 := feedMany r.1 cs
    (r2.1, r.2 ++ r2.2)

/-- Little-endian encoding of a `uint16` into two bytes. -/
def le16enc (n : Nat) : List Nat := [n % 256, n / 256 % 256]

/-- Little-endian encoding of a `uint32` into four bytes. -/
def le32enc (n : Nat) : List Nat :=
  [n % 256, n / 256 % 256, n / 65536 % 256, n / 16777216 % 256]

/-- Little-endian two's-complement encoding of an `int32` into four bytes
(`struct.pack '<i'`). -/
def i32enc (r : Int) : List Nat := le32enc (r % (2 ^ 32 : Int)).toNat

/-- A well-formed EMG wire frame for the given field values:
preamble, type byte `0x01`, 14-byte payload, and the little-endian
CRC16-CCITT-FALSE of the type byte through the payload. -/
def encodeEMG (seq ts : Nat) (r0 r1 : Int) : List Nat :=
  let body := FRAME_TYPE_EMG :: (le16enc seq ++ le32enc ts ++ i32enc r0 ++ i32enc r1)
  PREAMBLE ++ body ++ le16enc (crc16_ccitt body 0xFFFF)


/-! ## `core/signal_processing.py` — the angle calculator

Only the calibration model of `AngleCalculator` is needed by the claims; the
complementary-filter fusion in `update` additionally involves `atan2`, but the
calibration application step (lines 130-133 of the source) is a pure rational
computation on the fused angle, embedded below as `calibrated_output`.
Python `float` division raising `ZeroDivisionError` on a zero divisor is
modelled by `pyDiv` returning `none`. -/

/-- Python float division: `a / b`, raising `ZeroDivisionError` when `b == 0`. -/
def pyDiv (a b : ℚ) : Option ℚ :=
  if b = 0 then none else some (a / b)

/-- The state of `AngleCalculator` (`signal_processing.py`, `__init__`). -/
structure AngleCalculator where
  alpha : ℚ
  dt : ℚ
  angle : ℚ
  last_time : Option ℚ
  calibrated : Bool
  offset : ℚ
  scale : ℚ
  angle_ref1 : ℚ
  angle_ref2 : ℚ
deriving DecidableEq, Repr

/-- `AngleCalculator()` constructed with the configuration defaults
(`COMPLEMENTARY_FILTER_ALPHA = 0.02`, `IMU_FS = 50`, so `dt = 1/50`). -/
def AngleCalculator.init : AngleCalculator :=
  { alpha := 2 / 100, dt := 1 / 50, angle := 0, last_time := none,
    calibrated := false, offset := 0, scale := 1,
    angle_ref1 := 0, angle_ref2 := 90 }

/-- `AngleCalculator.calibrate_two_points(raw1, ref1, raw2, ref2)`:
`scale = (ref2 - ref1) / (raw2 - raw1)`; `offset = raw1 - ref1 / scale`;
records the reference angles and sets the calibrated flag.  Either division
raises `ZeroDivisionError` on a zero divisor (the source does not guard
this); the exception is modelled as `none`.  (On the second division failing,
the Python object has already mutated `self.scale`; the partially-mutated
state is not observable through any success path and is not modelled.) -/
def calibrate_two_points (c : AngleCalculator)
    (angle_raw1 angle_ref1 angle_raw2 angle_ref2 : ℚ) : Option AngleCalculator := do
  let scale ← pyDiv (angle_ref2 - angle_ref1) (angle_raw2 - angle_raw1)
  let q ← pyDiv angle_ref1 scale
  some { c with
    scale := scale
    offset := angle_raw1 - q
    angle_ref1 := angle_ref1
    angle_ref2 := angle_ref2
    calibrated := true }

/-- The calibration application step of `AngleCalculator.update`
(source lines 130-133): `(angle - offset) * scale` when calibrated,
the fused angle unchanged otherwise. -/
def calibrated_output (c : AngleCalculator) (angle : ℚ) : ℚ :=
  if c.calibrated then (angle - c.offset) * c.scale else angle


/-! ## `core/session_loader.py` — fatigue metrics

`SessionDataset.compute_fatigue_metrics(channel)` operates on the channel's
RMS series and the EMG time axis, both `np.ndarray`s of floats, modelled here
as `List ℚ` (exact rational arithmetic in place of IEEE doubles; the float
literal `1e-6` is modelled as the rational `1/1000000`). -/

/-- Python `int(x)` applied to a float: truncation toward zero. -/
def ratTrunc (q : ℚ) : Int := if q < 0 then -(⌊-q⌋) else ⌊q⌋

/-- `np.mean` of a list: sum divided by length (NumPy yields NaN on an empty
array; the source only applies it to nonempty slices). -/
def npMean (l : List ℚ) : ℚ := l.sum / l.length

/-- The slope coefficient `np.polyfit(xs, ys, 1)[0]`: the closed-form
degree-1 least-squares solution `(n Σxy − Σx Σy) / (n Σx² − (Σx)²)`. -/
def polyfitSlope (xs ys : List ℚ) : ℚ :=
  let n : ℚ := xs.length
  let sx := xs.sum
  let sy := ys.sum
  let sxy := ((xs.zip ys).map (fun p => p.1 * p.2)).sum
  let sxx := (xs.map (fun x => x ^ 2)).sum
  (n * sxy - sx * sy) / (n * sxx - sx ^ 2)

/-- `SessionDataset.compute_fatigue_metrics` (session_loader.py lines
294-333), as a function of the RMS series and the EMG time axis:
empty series yield `{}`; with fewer than 32 aligned samples only a
`"duration"` entry is produced (`t[limit-1] - t[0]` if more than one aligned
sample, else `0.0`); otherwise duration, decline percentage, least-squares
slope, baseline and tail means over `window = max(32, int(limit*0.05))`
samples.  The additional `"median_frequency"` entry (produced only when
`limit ≥ 256` and the duration is positive, via an FFT of the Hann-windowed
demeaned series) is floating-point spectral code outside the fragment
modelled here; every property proved below constrains only `limit < 32`,
where that branch is unreachable. -/
def compute_fatigue_metrics (rms t_emg : List ℚ) : List (String × ℚ) :=
  if rms.length = 0 ∨ t_emg.length = 0 then []
  else
    let limit := min rms.length t_emg.length
    if limit < 32 then
      [("duration", if 1 < limit then t_emg.getD (limit - 1) 0 - t_emg.getD 0 0 else 0)]
    else
      let rmsA := (rms.take limit).map (fun x => |x|)
      let times := t_emg.take limit
      let duration := if 1 < limit then times.getD (limit - 1) 0 - times.getD 0 0 else 0
      let window := max 32 (ratTrunc ((limit : ℚ) * (5 / 100))).toNat
      let baseline := if window ≤ limit then npMean (rmsA.take window) else npMean rmsA
      let tail_mean := if window ≤ limit then npMean (rmsA.drop (rmsA.length - window)) else baseline
      let decline := if 1 / 1000000 < baseline then (baseline - tail_mean) / baseline * 100 else 0
      let slope := if 0 < duration ∧ 1 < limit then polyfitSlope times rmsA else 0
      [("duration", duration), ("rms_decline_pct", decline), ("rms_slope", slope),
       ("baseline_rms", baseline), ("tail_rms", tail_mean)]


/-! ## `gui/calibration_dialog.py` — semi-automatic pose angle

`CalibrationDialog._calculate_pose_angle` computes with NumPy doubles and
`arccos`; it is modelled over `ℝ` (the float literal `1e-6` as the rational
`1/1000000`). -/

/-- A pose landmark position, `np.array([lm.x, lm.y, lm.z])`
(`_landmark_to_array`). -/
structure Landmark where
  x : ℝ
  y : ℝ
  z : ℝ

/-- Componentwise vector difference (`hip - knee`, `ankle - knee`). -/
def Landmark.sub (a b : Landmark) : Landmark :=
  ⟨a.x - b.x, a.y - b.y, a.z - b.z⟩

/-- `np.dot` of two 3-vectors. -/
def npDot (a b : Landmark) : ℝ :=
  a.x * b.x + a.y * b.y + a.z * b.z

/-- `np.linalg.norm` of a 3-vector. -/
noncomputable def npNorm (a : Landmark) : ℝ :=
  Real.sqrt (a.x ^ 2 + a.y ^ 2 + a.z ^ 2)

/-- `CalibrationDialog._calculate_pose_angle` (calibration_dialog.py lines
775-792) for already-resolved hip/knee/ankle landmark positions (the
`IndexError`/`AttributeError` guard around the landmark container lookup is
outside this model): forms `vec1 = hip − knee` and `vec2 = ankle − knee`,
returns `None` when either norm is below `1e-6`, and otherwise
`max(0.0, 180.0 − degrees(arccos(clip(cos, −1, 1))))` for the normalized
dot product `cos`. -/
noncomputable def calculate_pose_angle (hip knee ankle : Landmark) : Option ℝ :=
  let vec1 := hip.sub knee
  let vec2 := ankle.sub knee
  let norm1 := npNorm vec1
  let norm2 := npNorm vec2
  if norm1 < 1 / 1000000 ∨ norm2 < 1 / 1000000 then none
  else
    let cos_angle := npDot vec1 vec2 / (norm1 * norm2)
    let clipped := min 1 (max (-1) cos_angle)
    let inner_angle := Real.arccos clipped * (180 / Real.pi)
    some (max 0 (180 - inner_angle))


/-! ## `config/settings.py` — the configuration store

Python values stored in the settings dictionary are modelled by `PyVal`;
the dictionary itself (whose insertion order Python preserves) by an
association list `Settings` with order-preserving insertion.  Exceptions
raised by `_coerce_value` (`ValueError`/`TypeError`) are `Except.error`
carrying the message; the module-level mutation of `_runtime_settings` is
explicit state passing (`update_settings_state` returns the unchanged record
together with the error when the call raises, since in the source the
exception propagates before `_runtime_settings` is touched). -/

/-- A Python value as stored in the settings dictionary. -/
inductive PyVal where
  | int (n : Int)
  | float (q : ℚ)
  | str (s : String)
  | list (xs : List PyVal)
  | tuple (xs : List PyVal)
  | bytes (bs : List Nat)
deriving Repr

/-- A Python `dict` with string keys, as an insertion-ordered association
list. -/
def Settings : Type := List (String × PyVal)

/-- `settings[k]` lookup. -/
def lookupS : Settings → String → Option PyVal
  | [], _ => none
  | (k', v) :: rest, k => if k' = k then some v else lookupS rest k

/-- `settings[k] = v`: replace in place if the key exists, else append
(Python dict semantics). -/
def insertS : Settings → String → PyVal → Settings
  | [], k, v => [(k, v)]
  | (k', v') :: rest, k, v =>
    if k' = k then (k', v) :: rest else (k', v') :: insertS rest k v

/-- `DEFAULT_SETTINGS` (settings.py lines 32-80), floats as exact
rationals. -/
def DEFAULT_SETTINGS : Settings := [
  ("SERIAL_BAUD", .int 921600),
  ("SERIAL_TIMEOUT", .float 1),
  ("PREAMBLE", .list [.int 0xA5, .int 0x5A]),
  ("FRAME_TYPE_EMG", .int 0x01),
  ("FRAME_TYPE_IMU", .int 0x02),
  ("EMG_FS", .float (163578 / 100)),
  ("EMG_CHANNELS", .int 2),
  ("EMG_HIGHPASS_CUTOFF", .float 20),
  ("EMG_LOWPASS_CUTOFF", .float 500),
  ("EMG_NOTCH_FREQ", .float 60),
  ("EMG_NOTCH_Q", .float 30),
  ("RMS_WINDOW_MS", .int 100),
  ("IMU_FS", .int 50),
  ("COMPLEMENTARY_FILTER_ALPHA", .float (2 / 100)),
  ("CALIBRATION_POINTS", .int 2),
  ("AUTO_CALIB_CAMERA_INDEX", .int 3),
  ("AUTO_CALIB_FPS", .int 20),
  ("AUTO_CALIB_REFERENCE_EXT", .float 0),
  ("AUTO_CALIB_REFERENCE_FLEX", .float 90),
  ("AUTO_CALIB_TOLERANCE_DEG", .float 2),
  ("AUTO_CALIB_STABILITY_FRAMES", .int 12),
  ("AUTO_CALIB_VISIBILITY_THRESHOLD", .float (75 / 100)),
  ("VREF", .float (3275 / 1000)),
  ("PGA_GAIN", .int 1),
  ("ADC_RESOLUTION", .int 8388608),
  ("WINDOW_TIME_SEC", .float 5),
  ("UPDATE_FPS", .int 25),
  ("COLOR_CH0", .list [.int 31, .int 119, .int 180]),
  ("COLOR_CH1", .list [.int 255, .int 127, .int 14]),
  ("COLOR_RMS_CH0", .list [.int 44, .int 160, .int 44]),
  ("COLOR_RMS_CH1", .list [.int 214, .int 39, .int 40]),
  ("COLOR_ANGLE", .list [.int 148, .int 103, .int 189]),
  ("CONFIG_FILE", .str "system_config.json"),
  ("CALIBRATION_FILE", .str "imu_calibration.json")]

/-- The keys of `DERIVED_KEYS` (settings.py lines 83-88), in dict order. -/
def DERIVED_KEY_NAMES : List String :=
  ["RMS_WINDOW_SAMPLES", "UPDATE_INTERVAL_MS", "EMG_BUFFER_SIZE", "IMU_BUFFER_SIZE"]

/-- `key in DEFAULT_SETTINGS`. -/
def isSettingsKey (k : String) : Bool :=
  DEFAULT_SETTINGS.any (fun kv => kv.1 == k)

/-- `key in DERIVED_KEYS`. -/
def isDerivedKey (k : String) : Bool :=
  DERIVED_KEY_NAMES.contains k

/-- The `"type"` field of each `SETTINGS_SCHEMA` entry
(settings.py lines 91-372). -/
def SETTINGS_SCHEMA_TYPES : List (String × String) := [
  ("SERIAL_BAUD", "int"),
  ("SERIAL_TIMEOUT", "float"),
  ("PREAMBLE", "bytes"),
  ("FRAME_TYPE_EMG", "int"),
  ("FRAME_TYPE_IMU", "int"),
  ("EMG_FS", "float"),
  ("EMG_CHANNELS", "int"),
  ("EMG_HIGHPASS_CUTOFF", "float"),
  ("EMG_LOWPASS_CUTOFF", "float"),
  ("EMG_NOTCH_FREQ", "float"),
  ("EMG_NOTCH_Q", "float"),
  ("RMS_WINDOW_MS", "int"),
  ("RMS_WINDOW_SAMPLES", "derived"),
  ("IMU_FS", "int"),
  ("COMPLEMENTARY_FILTER_ALPHA", "float"),
  ("CALIBRATION_POINTS", "choice"),
  ("AUTO_CALIB_CAMERA_INDEX", "int"),
  ("AUTO_CALIB_FPS", "int"),
  ("AUTO_CALIB_REFERENCE_EXT", "float"),
  ("AUTO_CALIB_REFERENCE_FLEX", "float"),
  ("AUTO_CALIB_TOLERANCE_DEG", "float"),
  ("AUTO_CALIB_STABILITY_FRAMES", "int"),
  ("AUTO_CALIB_VISIBILITY_THRESHOLD", "float"),
  ("VREF", "float"),
  ("PGA_GAIN", "int"),
  ("ADC_RESOLUTION", "int"),
  ("WINDOW_TIME_SEC", "float"),
  ("UPDATE_FPS", "int"),
  ("UPDATE_INTERVAL_MS", "derived"),
  ("EMG_BUFFER_SIZE", "derived"),
  ("IMU_BUFFER_SIZE", "derived"),
  ("COLOR_CH0", "color"),
  ("COLOR_CH1", "color"),
  ("COLOR_RMS_CH0", "color"),
  ("COLOR_RMS_CH1", "color"),
  ("COLOR_ANGLE", "color"),
  ("CONFIG_FILE", "str"),
  ("CALIBRATION_FILE", "str")]

/-- `SETTINGS_SCHEMA.get(key, {}).get("type")`. -/
def schemaType (k : String) : Option String :=
  (SETTINGS_SCHEMA_TYPES.find? (fun kv => kv.1 == k)).map (fun kv => kv.2)

/-- Python `int(value)`: identity on ints, truncation toward zero on floats,
decimal parse on strings, `TypeError` (none) otherwise. -/
def pyToInt : PyVal → Option Int
  | .int n => some n
  | .float q => some (ratTrunc q)
  | .str s => s.toInt?
  | _ => none

/-- Python `float(value)` (numeric-literal strings approximated by integer
parse; no claim exercises that case). -/
def pyToFloat : PyVal → Option ℚ
  | .int n => some (n : ℚ)
  | .float q => some q
  | .str s => (s.toInt?).map (fun n => (n : ℚ))
  | _ => none

/-- Python `int(c)` for a single character of a string. -/
def pyCharInt (c : Char) : Option Int :=
  if c.isDigit then some ((c.toNat - 48 : Nat) : Int) else none

mutual
/-- Python `str(value)` (container renderings approximate CPython's; only
the `str`-typed keys `CONFIG_FILE`/`CALIBRATION_FILE` reach this and hold
strings). -/
def pyStr : PyVal → String
  | .int n => toString n
  | .float q => toString q
  | .str s => s
  | .list xs => "[" ++ String.intercalate ", " (pyStrList xs) ++ "]"
  | .tuple xs => "(" ++ String.intercalate ", " (pyStrList xs) ++ ")"
  | .bytes bs => "bytes([" ++ String.intercalate ", " (bs.map toString) ++ "])"

/-- `str` of each element of a container. -/
def pyStrList : List PyVal → List String
  | [] => []
  | v :: vs => pyStr v :: pyStrList vs
end

/-- A list comprehension `[int(v) for v in value]`-style traversal: `none`
as soon as one element's conversion raises. -/
def mapIntAll {α : Type} (f : α → Option Int) : List α → Option (List Int)
  | [] => some []
  | v :: vs =>
    match f v, mapIntAll f vs with
    | some n, some ns => some (n :: ns)
    | _, _ => none

/-- The `color` arm of `_coerce_value`: a 3-element list or tuple becomes
`[int(v) for v in value]`; anything else raises
`ValueError(f"{key}: formato de color inválido")`. -/
def coerceColor (key : String) (xs : List PyVal) : Except String PyVal :=
  if xs.length = 3 then
    match mapIntAll pyToInt xs with
    | some ns => .ok (.list (ns.map (fun n => .int n)))
    | none => .error "invalid literal for int()"
  else .error (key ++ ": formato de color inválido")

/-- The iterable arm of the `bytes` coercion: `[int(v) & 0xFF for v in value]`. -/
def coerceBytesList (xs : List PyVal) : Except String PyVal :=
  match mapIntAll pyToInt xs with
  | some ns => .ok (.list (ns.map (fun n => .int (Int.land n 0xFF))))
  | none => .error "invalid literal for int()"

/-- The `bytes` coercion applied to a string (strings are iterables of
1-character strings in Python). -/
def coerceBytesStr (s : String) : Except String PyVal :=
  match mapIntAll pyCharInt s.data with
  | some ns => .ok (.list (ns.map (fun n => .int (Int.land n 0xFF))))
  | none => .error "invalid literal for int()"

/-- `_coerce_value(key, value)` (settings.py lines 498-520): dispatch on the
schema type; `int`/`float` coerce numerically, `choice` passes through,
`color` demands a 3-element list/tuple of ints, `bytes` accepts
bytes/bytearray as-is and any other iterable via `int(v) & 0xFF`, `str`
stringifies, and any other (or missing) schema type returns the value
unchanged. -/
def coerce_value (key : String) (value : PyVal) : Except String PyVal :=
  let value_type := schemaType key
  if value_type = some "int" then
    match pyToInt value with
    | some n => .ok (.int n)
    | none => .error "invalid literal for int()"
  else if value_type = some "float" then
    match pyToFloat value with
    | some q => .ok (.float q)
    | none => .error "could not convert to float"
  else if value_type = some "choice" then .ok value
  else if value_type = some "color" then
    match value with
    | .list xs => coerceColor key xs
    | .tuple xs => coerceColor key xs
    | _ => .error (key ++ ": formato de color inválido")
  else if value_type = some "bytes" then
    match value with
    | .bytes bs => .ok (.list (bs.map (fun b => .int (b : Int))))
    | .list xs => coerceBytesList xs
    | .tuple xs => coerceBytesList xs
    | .str s => coerceBytesStr s
    | _ => .error (key ++ ": formato de bytes inválido")
  else if value_type = some "str" then .ok (.str (pyStr value))
  else .ok value

/-- The update loop of `update_settings` (settings.py lines 529-538):
unknown keys are skipped silently, derived keys are skipped, recognized keys
are coerced — the first coercion failure aborts the whole call with
`ValueError(f"Valor inválido para {key}: ...")`. -/
def apply_updates (st : Settings) : List (String × PyVal) → Except String Settings
  | [] => .ok st
  | (k, v) :: rest =>
    if isSettingsKey k = false ∧ isDerivedKey k = false then apply_updates st rest
    else if isDerivedKey k = true then apply_updates st rest
    else
      match coerce_value k v with
      | .ok c => apply_updates (insertS st k c) rest
      | .error m => .error ("Valor inválido para " ++ k ++ ": " ++ m)

/-- Numeric view of a stored value, as used by the `DERIVED_KEYS` lambdas
(arithmetic on anything else raises `TypeError`). -/
def asRat : PyVal → Option ℚ
  | .int n => some (n : ℚ)
  | .float q => some q
  | _ => none

/-- `_compute_derived` (settings.py lines 437-439 over the `DERIVED_KEYS`
table, lines 83-88): recompute and store, in dict order,
`RMS_WINDOW_SAMPLES = int(EMG_FS * RMS_WINDOW_MS / 1000)`,
`UPDATE_INTERVAL_MS = int(1000 / max(1, UPDATE_FPS))`,
`EMG_BUFFER_SIZE = int(EMG_FS * WINDOW_TIME_SEC)`,
`IMU_BUFFER_SIZE = int(IMU_FS * WINDOW_TIME_SEC)`. -/
def compute_derived (st : Settings) : Option Settings := do
  let fs ← (lookupS st "EMG_FS").bind asRat
  let ms ← (lookupS st "RMS_WINDOW_MS").bind asRat
  let fps ← (lookupS st "UPDATE_FPS").bind asRat
  let wt ← (lookupS st "WINDOW_TIME_SEC").bind asRat
  let ifs ← (lookupS st "IMU_FS").bind asRat
  some (insertS (insertS (insertS (insertS st
    "RMS_WINDOW_SAMPLES" (.int (ratTrunc (fs * ms / 1000))))
    "UPDATE_INTERVAL_MS" (.int (ratTrunc (1000 / max 1 fps))))
    "EMG_BUFFER_SIZE" (.int (ratTrunc (fs * wt))))
    "IMU_BUFFER_SIZE" (.int (ratTrunc (ifs * wt))))

/-- `update_settings(new_values)` (settings.py lines 523-556) acting on an
explicit in-memory record: run the update loop, then recompute the derived
values (persistence to disk is I/O outside this model; it does not affect
the returned record). -/
def update_settings (st : Settings) (new_values : List (String × PyVal)) :
    Except String Settings := do
  let updated ← apply_updates st new_values
  match compute_derived updated with
  | some final => .ok final
  | none => .error "TypeError: unsupported operand type(s)"

/-- The state-passing view of a call to `update_settings` on the module-level
`_runtime_settings`: on success the record is replaced, on an exception the
record is unchanged (in the source, `raise` happens before
`_runtime_settings` is mutated). -/
def update_settings_state (st : Settings) (nv : List (String × PyVal)) :
    Settings × Option String :=
  match update_settings st nv with
  | .ok st2 => (st2, none)
  | .error m => (st, some m)

/-- `_normalize_settings` (settings.py lines 418-434): color tuples become
lists, a bytes-valued preamble becomes a list of ints. -/
def normalize_settings (st : Settings) : Settings :=
  st.map (fun kv =>
    if kv.1 == "COLOR_CH0" || kv.1 == "COLOR_CH1" || kv.1 == "COLOR_RMS_CH0" ||
        kv.1 == "COLOR_RMS_CH1" || kv.1 == "COLOR_ANGLE" then
      match kv.2 with
      | .tuple xs => (kv.1, .list xs)
      | v => (kv.1, v)
    else if kv.1 == "PREAMBLE" then
      match kv.2 with
      | .bytes bs => (kv.1, .list (bs.map (fun b => PyVal.int (b : Int))))
      | v => (kv.1, v)
    else kv)

/-- `load_settings()` (settings.py lines 470-478) with the on-disk JSON
object made explicit (`none` models a missing or unparseable file):
normalized defaults, overlaid with every on-disk key already present in the
record, then derived-value recomputation. -/
def load_settings (disk : Option (List (String × PyVal))) : Option Settings :=
  let base := normalize_settings DEFAULT_SETTINGS
  let loaded := match disk with
    | none => base
    | some data => data.foldl (fun acc kv =>
        if acc.any (fun e => e.1 == kv.1) then insertS acc kv.1 kv.2 else acc) base
  compute_derived loaded

/-- `reset_to_defaults()` (settings.py lines 559-582): normalized defaults
plus derived-value recomputation. -/
def reset_to_defaults : Option Settings :=
  compute_derived (normalize_settings DEFAULT_SETTINGS)

/-! ## Decoder lemmas -/

theorem crcUpdate_lt (crc b : Nat) : crcUpdate crc b < 65536 :=
  Nat.lt_succ_of_le Nat.and_le_right

theorem crc16_lt : ∀ (data : List Nat) (init : Nat), init < 65536 →
    crc16_ccitt data init < 65536
  | [], _, h => h
  | b :: rest, init, _ => crc16_lt rest (crcUpdate init b) (crcUpdate_lt init b)

theorem le16_dec (n : Nat) (h : n < 65536) : le16 (n % 256) (n / 256 % 256) = n := by
  unfold le16; omega

theorem le32_dec (n : Nat) (h : n < 4294967296) :
    le32 (n % 256) (n / 256 % 256) (n / 65536 % 256) (n / 16777216 % 256) = n := by
  unfold le32; omega

theorem toNat_emod32_lt (r : Int) : (r % (2 ^ 32 : Int)).toNat < 4294967296 := by
  omega

theorem int32_roundtrip (r : Int) (hl : -(2 ^ 31) ≤ r) (hu : r < 2 ^ 31) :
    int32ofLE (r % (2 ^ 32 : Int)).toNat = r := by
  unfold int32ofLE; split <;> omega

theorem feedLoop_nil (fuel : Nat) : feedLoop fuel [] = ([], []) := by
  cases fuel <;> simp [feedLoop]

theorem findPreamble_cons165 (l : List Nat) : findPreamble (165 :: 90 :: l) = some 0 := by
  simp [findPreamble]

theorem findPreamble_append_none :
    ∀ (g : List Nat), findPreamble g = none →
      ∀ l : List Nat, findPreamble (g ++ 165 :: 90 :: l) = some g.length
  | [], _, l => findPreamble_cons165 l
  | [a], h, l => by
    have ha : ¬ (a = 165 ∧ (165 : Nat) = 90) := by omega
    simp [findPreamble, ha]
  | a :: b :: g, h, l => by
    have hab : ¬ (a = 165 ∧ b = 90) := by
      intro hab; simp [findPreamble, hab] at h
    have h2 : findPreamble (b :: g) = none := by
      simpa [findPreamble, hab] using h
    have ih := findPreamble_append_none (b :: g) h2 l
    simp only [List.cons_append] at ih ⊢
    simp [findPreamble, hab, ih]

theorem feedLoop_emg_after_garbage (f : Nat) (g p : List Nat) (c0 c1 : Nat)
    (hg : findPreamble g = none) (hp : p.length = 14)
    (hcrc : le16 c0 c1 = crc16_ccitt (1 :: p) 0xFFFF) :
    feedLoop (f + 1) (g ++ 165 :: 90 :: 1 :: (p ++ [c0, c1])) =
      ([], (decodePayload 1 p).toList) := by
  have hfrlen : (165 :: 90 :: 1 :: (p ++ [c0, c1])).length = 19 := by simp [hp]
  have h7 : ¬ ((g ++ 165 :: 90 :: 1 :: (p ++ [c0, c1])).length < 7) := by
    simp [hp]
  have hfind : findPreamble (g ++ 165 :: 90 :: 1 :: (p ++ [c0, c1])) = some g.length :=
    findPreamble_append_none g hg _
  have hdrop : (g ++ 165 :: 90 :: 1 :: (p ++ [c0, c1])).drop g.length =
      165 :: 90 :: 1 :: (p ++ [c0, c1]) := List.drop_left' rfl
  have htake19 : (165 :: 90 :: 1 :: (p ++ [c0, c1])).take 19 =
      165 :: 90 :: 1 :: (p ++ [c0, c1]) := by
    rw [← hfrlen]; exact List.take_length _
  simp only [feedLoop, if_neg h7, hfind, hdrop]
  have h7b : ¬ ((165 :: 90 :: 1 :: (p ++ [c0, c1])).length < 7) := by simp [hp]
  simp only [if_neg h7b]
  have hty : (165 :: 90 :: 1 :: (p ++ [c0, c1])).getD 2 0 = FRAME_TYPE_EMG := rfl
  simp only [hty, if_pos rfl]
  simp only [if_true]
  norm_num
  have hp16 : (p ++ [c0, c1]).length = 16 := by simp [hp]
  have htk16 : List.take 16 (p ++ [c0, c1]) = p ++ [c0, c1] := by
    rw [← hp16]; exact List.take_length _
  have hdrop16 : List.drop 16 (p ++ [c0, c1]) = [] := by
    rw [← hp16]; exact List.drop_length _
  have hget14 : (p ++ [c0, c1])[14]?.getD 0 = c0 := by
    rw [List.getElem?_append_right (by omega : p.length ≤ 14), hp]
    rfl
  have hget15 : (p ++ [c0, c1])[15]?.getD 0 = c1 := by
    rw [List.getElem?_append_right (by omega : p.length ≤ 15), hp]
    rfl
  have hcond : ¬ (p.length + 2 + 1 + 1 + 1 < 19) := by omega
  rw [if_neg hcond, htk16, List.take_left' hp, hget14, hget15, hdrop16, feedLoop_nil,
    if_pos hcrc]
  cases hdec : decodePayload 1 p <;> simp [FRAME_TYPE_EMG, hdec]

theorem decodePayload_encode (seq ts : Nat) (r0 r1 : Int)
    (hseq : seq < 65536) (hts : ts < 4294967296)
    (h0l : -(2 ^ 31) ≤ r0) (h0u : r0 < 2 ^ 31)
    (h1l : -(2 ^ 31) ≤ r1) (h1u : r1 < 2 ^ 31) :
    decodePayload 1 (le16enc seq ++ le32enc ts ++ i32enc r0 ++ i32enc r1) =
      some (.emg seq ts (voltage r0) (voltage r1)) := by
  have h0 : int32ofLE (le32 ((r0 % 4294967296).toNat % 256)
      ((r0 % 4294967296).toNat / 256 % 256) ((r0 % 4294967296).toNat / 65536 % 256)
      ((r0 % 4294967296).toNat / 16777216 % 256)) = r0 := by
    rw [le32_dec _ (by omega)]; unfold int32ofLE; split <;> omega
  have h1 : int32ofLE (le32 ((r1 % 4294967296).toNat % 256)
      ((r1 % 4294967296).toNat / 256 % 256) ((r1 % 4294967296).toNat / 65536 % 256)
      ((r1 % 4294967296).toNat / 16777216 % 256)) = r1 := by
    rw [le32_dec _ (by omega)]; unfold int32ofLE; split <;> omega
  simp only [decodePayload, le16enc, le32enc, i32enc, FRAME_TYPE_EMG]
  norm_num [le16_dec seq hseq, le32_dec ts hts, h0, h1]

theorem encodeEMG_eq (seq ts : Nat) (r0 r1 : Int) :
    encodeEMG seq ts r0 r1 =
      165 :: 90 :: 1 ::
        ((le16enc seq ++ le32enc ts ++ i32enc r0 ++ i32enc r1) ++
          [crc16_ccitt (1 :: (le16enc seq ++ le32enc ts ++ i32enc r0 ++ i32enc r1)) 0xFFFF % 256,
           crc16_ccitt (1 :: (le16enc seq ++ le32enc ts ++ i32enc r0 ++ i32enc r1)) 0xFFFF / 256 % 256]) := by
  simp [encodeEMG, PREAMBLE, FRAME_TYPE_EMG, le16enc]

theorem payload_encode_length (seq ts : Nat) (r0 r1 : Int) :
    (le16enc seq ++ le32enc ts ++ i32enc r0 ++ i32enc r1).length = 14 := by
  simp [le16enc, le32enc, i32enc]

theorem encodeEMG_length (seq ts : Nat) (r0 r1 : Int) :
    (encodeEMG seq ts r0 r1).length = 19 := by
  rw [encodeEMG_eq]
  simp [le16enc, le32enc, i32enc]

/-- Feeding one complete well-formed EMG frame (with anything preamble-free in
front of it) decodes exactly that frame and empties the buffer. -/
theorem feedLoop_encode (f : Nat) (g : List Nat) (seq ts : Nat) (r0 r1 : Int)
    (hg : findPreamble g = none)
    (hseq : seq < 65536) (hts : ts < 4294967296)
    (h0l : -(2 ^ 31) ≤ r0) (h0u : r0 < 2 ^ 31)
    (h1l : -(2 ^ 31) ≤ r1) (h1u : r1 < 2 ^ 31) :
    feedLoop (f + 1) (g ++ encodeEMG seq ts r0 r1) =
      ([], [.emg seq ts (voltage r0) (voltage r1)]) := by
  rw [encodeEMG_eq]
  rw [feedLoop_emg_after_garbage f g _ _ _ hg (payload_encode_length seq ts r0 r1)
    (le16_dec _ (crc16_lt _ _ (by norm_num)))]
  rw [decodePayload_encode seq ts r0 r1 hseq hts h0l h0u h1l h1u]
  rfl

/-- A strict prefix of a well-formed EMG frame is held in the buffer
unchanged, producing no frames: the loop waits for more data. -/
theorem feedLoop_encode_incomplete (fuel k : Nat) (seq ts : Nat) (r0 r1 : Int)
    (hk : k < 19) :
    feedLoop fuel ((encodeEMG seq ts r0 r1).take k) =
      ((encodeEMG seq ts r0 r1).take k, []) := by
  cases fuel with
  | zero => simp [feedLoop]
  | succ f =>
    have hlen : ((encodeEMG seq ts r0 r1).take k).length = k := by
      rw [List.length_take, encodeEMG_length]; omega
    by_cases h7 : k < 7
    · have hlt7 : ((encodeEMG seq ts r0 r1).take k).length < 7 := by omega
      simp only [feedLoop]
      rw [if_pos hlt7]
    · -- 7 ≤ k < 19: the loop finds the preamble at 0, reads the type byte,
      -- computes a 19-byte total frame size and stops for lack of data.
      obtain ⟨m, rfl⟩ : ∃ m, k = m + 7 := ⟨k - 7, by omega⟩
      rw [encodeEMG_eq]
      set R := (le16enc seq ++ le32enc ts ++ i32enc r0 ++ i32enc r1) ++
        [crc16_ccitt (1 :: (le16enc seq ++ le32enc ts ++ i32enc r0 ++ i32enc r1)) 0xFFFF % 256,
         crc16_ccitt (1 :: (le16enc seq ++ le32enc ts ++ i32enc r0 ++ i32enc r1)) 0xFFFF / 256 % 256] with hR
      have hRlen : R.length = 16 := by
        rw [hR]; simp [le16enc, le32enc, i32enc]
      have htake : (165 :: 90 :: 1 :: R).take (m + 7) = 165 :: 90 :: 1 :: R.take (m + 4) := by
        show (165 :: 90 :: 1 :: R).take ((m + 4) + 3) = 165 :: 90 :: 1 :: R.take (m + 4)
        simp [List.take_cons]
      rw [htake]
      have hlen2 : (R.take (m + 4)).length = m + 4 := by
        rw [List.length_take]; omega
      have h7' : ¬ ((165 :: 90 :: 1 :: R.take (m + 4)).length < 7) := by
        simp [hlen2]
      simp only [feedLoop, if_neg h7', findPreamble_cons165, List.drop_zero]
      have hty : (165 :: 90 :: 1 :: R.take (m + 4)).getD 2 0 = FRAME_TYPE_EMG := rfl
      simp only [hty, if_pos rfl, if_true]
      norm_num
      omega

theorem feedMany_empty_chunks :
    ∀ (cs : List (List Nat)), cs.flatten = [] → feedMany ⟨[]⟩ cs = (⟨[]⟩, [])
  | [], _ => rfl
  | c :: cs, h => by
    rw [List.flatten_cons, List.append_eq_nil] at h
    obtain ⟨rfl, h2⟩ := h
    have : FrameDecoder.feed ⟨[]⟩ [] = (⟨[]⟩, []) := rfl
    simp [feedMany, this, feedMany_empty_chunks cs h2]

theorem feedMany_encode (seq ts : Nat) (r0 r1 : Int)
    (hseq : seq < 65536) (hts : ts < 4294967296)
    (h0l : -(2 ^ 31) ≤ r0) (h0u : r0 < 2 ^ 31)
    (h1l : -(2 ^ 31) ≤ r1) (h1u : r1 < 2 ^ 31) :
    ∀ (cs : List (List Nat)) (a : Nat), a < 19 →
      cs.flatten = (encodeEMG seq ts r0 r1).drop a →
      feedMany ⟨(encodeEMG seq ts r0 r1).take a⟩ cs =
        (⟨[]⟩, [.emg seq ts (voltage r0) (voltage r1)]) := by
  intro cs
  induction cs with
  | nil =>
    intro a ha hj
    exfalso
    have := congrArg List.length hj
    rw [List.length_drop, encodeEMG_length] at this
    simp at this
    omega
  | cons c cs ih =>
    intro a ha hj
    rw [List.flatten_cons] at hj
    have hsplit : encodeEMG seq ts r0 r1 =
        ((encodeEMG seq ts r0 r1).take a ++ c) ++ cs.flatten := by
      conv_lhs => rw [← List.take_append_drop a (encodeEMG seq ts r0 r1)]
      rw [← hj, List.append_assoc]
    have htlen : ((encodeEMG seq ts r0 r1).take a).length = a := by
      rw [List.length_take, encodeEMG_length]; omega
    have hblen : a + c.length + cs.flatten.length = 19 := by
      have := congrArg List.length hsplit
      rw [encodeEMG_length, List.length_append, List.length_append, htlen] at this
      omega
    have htake : (encodeEMG seq ts r0 r1).take (a + c.length) =
        (encodeEMG seq ts r0 r1).take a ++ c := by
      conv_lhs => rw [hsplit]
      exact List.take_left' (by simp [htlen])
    by_cases hb : a + c.length < 19
    · -- still a strict prefix after this chunk
      have hfeed : FrameDecoder.feed ⟨(encodeEMG seq ts r0 r1).take a⟩ c =
          (⟨(encodeEMG seq ts r0 r1).take (a + c.length)⟩, []) := by
        simp only [FrameDecoder.feed]
        rw [← htake]
        rw [feedLoop_encode_incomplete _ _ seq ts r0 r1 hb]
      have hj' : cs.flatten = (encodeEMG seq ts r0 r1).drop (a + c.length) := by
        conv_rhs => rw [hsplit]
        exact (List.drop_left' (by simp [htlen])).symm
      simp [feedMany, hfeed, ih (a + c.length) hb hj']
    · -- the frame is complete exactly at this chunk boundary
      have hb19 : a + c.length = 19 := by omega
      have hfeed : FrameDecoder.feed ⟨(encodeEMG seq ts r0 r1).take a⟩ c =
          (⟨[]⟩, [.emg seq ts (voltage r0) (voltage r1)]) := by
        simp only [FrameDecoder.feed]
        rw [← htake, hb19]
        have h19 : (encodeEMG seq ts r0 r1).take 19 = encodeEMG seq ts r0 r1 := by
          rw [← encodeEMG_length seq ts r0 r1]; exact List.take_length _
        rw [h19, encodeEMG_length]
        have := feedLoop_encode 19 [] seq ts r0 r1 rfl hseq hts h0l h0u h1l h1u
        rw [List.nil_append] at this
        rw [this]
      have hj' : cs.flatten = [] := by
        have hd : (encodeEMG seq ts r0 r1).drop (a + c.length) = cs.flatten := by
          conv_lhs => rw [hsplit]
          exact List.drop_left' (by simp [htlen])
        rw [← hd, hb19, ← encodeEMG_length seq ts r0 r1, List.drop_length]
      simp [feedMany, hfeed, feedMany_empty_chunks cs hj']

/-! ## Claim theorems for the frame decoder -/

/-- **C1.** For every well-formed EMG frame (preamble `A5 5A`, type `01`,
14-byte little-endian payload `uint16 seq`, `uint32 timestamp_us`,
`int32 raw_ch0`, `int32 raw_ch1`, followed by the little-endian
CRC16-CCITT-FALSE of the type byte through the payload), and for every
partition of its bytes into successive chunks, feeding the chunks in order to
a fresh `FrameDecoder` yields exactly one decoded EMG frame whose `seq` and
`timestamp_us` equal the encoded values and whose channel voltages equal
`(raw / 2^23) * (3.275 / PGA_GAIN)` (see `voltage`). -/
theorem frame_roundtrip_chunked (seq ts : Nat) (r0 r1 : Int)
    (hseq : seq < 65536) (hts : ts < 4294967296)
    (h0l : -(2 ^ 31) ≤ r0) (h0u : r0 < 2 ^ 31)
    (h1l : -(2 ^ 31) ≤ r1) (h1u : r1 < 2 ^ 31)
    (chunks : List (List Nat))
    (hchunks : chunks.flatten = encodeEMG seq ts r0 r1) :
    feedMany ⟨[]⟩ chunks = (⟨[]⟩, [.emg seq ts (voltage r0) (voltage r1)]) := by
  have := feedMany_encode seq ts r0 r1 hseq hts h0l h0u h1l h1u chunks 0
    (by omega) (by simpa using hchunks)
  simpa using this

set_option maxRecDepth 10000 in
/-- Witness for C1: the frame with sequence 42, timestamp 1 000 000 µs,
raw samples 100 000 and −50 000, fed one byte per `feed` call. -/
theorem frame_roundtrip_chunked_witness :
    ((encodeEMG 42 1000000 100000 (-50000)).map (fun b => [b])).flatten =
        encodeEMG 42 1000000 100000 (-50000) ∧
      feedMany ⟨[]⟩ ((encodeEMG 42 1000000 100000 (-50000)).map (fun b => [b])) =
        (⟨[]⟩, [.emg 42 1000000 (voltage 100000) (voltage (-50000))]) :=
  ⟨by decide,
   frame_roundtrip_chunked 42 1000000 100000 (-50000) (by decide) (by decide)
     (by decide) (by decide) (by decide) (by decide) _ (by decide)⟩

set_option maxRecDepth 10000 in
/-- **C2, counterexample.** The claim "feeding a valid frame preceded by
*arbitrary* garbage yields exactly the one valid frame" is false: garbage that
itself contains the preamble followed by a valid type byte makes the decoder
frame a 19-byte candidate straddling the garbage/frame boundary; its CRC
fails, the 19 bytes (including the real frame's first 12 bytes) are consumed,
and the remaining tail of the real frame can never decode.  Here the
concatenation of 7 such garbage bytes and a valid frame yields *no* frame at
all. -/
theorem decoder_garbage_counterexample :
    (FrameDecoder.feed ⟨[]⟩
        ([165, 90, 1, 0, 0, 0, 0] ++ encodeEMG 42 1000000 100000 (-50000))).2 = [] := by
  decide

/-- **C2 (amended).** Feeding bytes that contain no preamble never yields a
frame (and, the decoder being a total function, never raises); feeding a
valid EMG frame preceded by *preamble-free* garbage yields exactly the one
valid decoded frame, with the garbage discarded. -/
theorem decoder_resync_garbage :
    (∀ data : List Nat, findPreamble data = none →
      (FrameDecoder.feed ⟨[]⟩ data).2 = []) ∧
    (∀ (g : List Nat) (seq ts : Nat) (r0 r1 : Int),
      findPreamble g = none →
      seq < 65536 → ts < 4294967296 →
      -(2 ^ 31) ≤ r0 → r0 < 2 ^ 31 → -(2 ^ 31) ≤ r1 → r1 < 2 ^ 31 →
      FrameDecoder.feed ⟨[]⟩ (g ++ encodeEMG seq ts r0 r1) =
        (⟨[]⟩, [.emg seq ts (voltage r0) (voltage r1)])) := by
  constructor
  · intro data hnp
    simp only [FrameDecoder.feed, List.nil_append]
    by_cases h7 : data.length < 7
    · simp [feedLoop, h7]
    · simp [feedLoop, h7, hnp]
  · intro g seq ts r0 r1 hg hseq hts h0l h0u h1l h1u
    simp only [FrameDecoder.feed, List.nil_append]
    have hlen : (g ++ encodeEMG seq ts r0 r1).length = g.length + 19 := by
      simp [encodeEMG_length]
    rw [hlen, feedLoop_encode (g.length + 19) g seq ts r0 r1 hg hseq hts h0l h0u h1l h1u]

set_option maxRecDepth 10000 in
/-- Witness for C2: preamble-free garbage alone yields nothing; the concrete
frame of C1 preceded by the garbage `[0, 1, 2, 3]` decodes exactly once. -/
theorem decoder_resync_garbage_witness :
    (FrameDecoder.feed ⟨[]⟩ [7, 165, 7, 90, 3, 165, 8, 90]).2 = [] ∧
    FrameDecoder.feed ⟨[]⟩ ([0, 1, 2, 3] ++ encodeEMG 42 1000000 100000 (-50000)) =
      (⟨[]⟩, [.emg 42 1000000 (voltage 100000) (voltage (-50000))]) :=
  ⟨decoder_resync_garbage.1 [7, 165, 7, 90, 3, 165, 8, 90] (by decide),
   decoder_resync_garbage.2 [0, 1, 2, 3] 42 1000000 100000 (-50000) (by decide) (by decide)
     (by decide) (by decide) (by decide) (by decide) (by decide)⟩

/-- **C3.** For every candidate frame at a found preamble with the full
computed total frame size buffered — an EMG candidate (type byte `0x01`,
19 bytes) or an IMU candidate (type byte `0x02`, 23 bytes): if the appended
little-endian 16-bit CRC (the candidate's last two bytes) equals the
CRC16-CCITT-FALSE over the type byte through the payload, the decoded frame
(which always decodes: the payload has the exact 14- or 18-byte length) is
appended to the output; on mismatch no frame is emitted and no error is
raised; in both cases the loop continues past the same consumed total frame
size (`buf.drop 19` / `buf.drop 23`), so the candidate's bytes are never
retried. -/
theorem candidate_crc_gate :
    (∀ (r : List Nat) (fuel : Nat), 16 ≤ r.length →
      if le16 (((165 :: 90 :: 1 :: r).take 19).getD 17 0)
              (((165 :: 90 :: 1 :: r).take 19).getD 18 0) =
          crc16_ccitt ((((165 :: 90 :: 1 :: r).take 19).drop 2).take 15) 0xFFFF
      then
        ∃ fr, decodePayload 1 ((((165 :: 90 :: 1 :: r).take 19).drop 3).take 14) = some fr ∧
          feedLoop (fuel + 1) (165 :: 90 :: 1 :: r) =
            ((feedLoop fuel ((165 :: 90 :: 1 :: r).drop 19)).1,
             fr :: (feedLoop fuel ((165 :: 90 :: 1 :: r).drop 19)).2)
      else
        feedLoop (fuel + 1) (165 :: 90 :: 1 :: r) =
          feedLoop fuel ((165 :: 90 :: 1 :: r).drop 19)) ∧
    (∀ (r : List Nat) (fuel : Nat), 20 ≤ r.length →
      if le16 (((165 :: 90 :: 2 :: r).take 23).getD 21 0)
              (((165 :: 90 :: 2 :: r).take 23).getD 22 0) =
          crc16_ccitt ((((165 :: 90 :: 2 :: r).take 23).drop 2).take 19) 0xFFFF
      then
        ∃ fr, decodePayload 2 ((((165 :: 90 :: 2 :: r).take 23).drop 3).take 18) = some fr ∧
          feedLoop (fuel + 1) (165 :: 90 :: 2 :: r) =
            ((feedLoop fuel ((165 :: 90 :: 2 :: r).drop 23)).1,
             fr :: (feedLoop fuel ((165 :: 90 :: 2 :: r).drop 23)).2)
      else
        feedLoop (fuel + 1) (165 :: 90 :: 2 :: r) =
          feedLoop fuel ((165 :: 90 :: 2 :: r).drop 23)) := by
  constructor
  · intro r fuel hr
    have h7 : ¬ ((165 :: 90 :: 1 :: r).length < 7) := by simp; omega
    simp only [feedLoop, if_neg h7, findPreamble_cons165, List.drop_zero]
    have hty : (165 :: 90 :: 1 :: r).getD 2 0 = FRAME_TYPE_EMG := rfl
    simp only [hty, if_pos rfl, if_true]
    norm_num
    have hlen : ¬ (r.length + 1 + 1 + 1 < 19) := by omega
    have h14 : (List.take 14 (List.take 16 r)).length = 14 := by
      simp [List.length_take]; omega
    obtain ⟨fr, hfr⟩ : ∃ fr, decodePayload 1 (List.take 14 (List.take 16 r)) = some fr := by
      simp [decodePayload, FRAME_TYPE_EMG, h14]
    have hfr' : decodePayload FRAME_TYPE_EMG (List.take 14 (List.take 16 r)) = some fr := hfr
    split
    · exact ⟨fr, hfr, by simp [hfr']⟩
    · rfl
  · intro r fuel hr
    have h7 : ¬ ((165 :: 90 :: 2 :: r).length < 7) := by simp; omega
    simp only [feedLoop, if_neg h7, findPreamble_cons165, List.drop_zero]
    have hty : (165 :: 90 :: 2 :: r).getD 2 0 = 2 := rfl
    simp only [hty, FRAME_TYPE_EMG, FRAME_TYPE_IMU]
    norm_num
    have hlen : ¬ (r.length + 1 + 1 + 1 < 23) := by omega
    have h18 : (List.take 18 (List.take 20 r)).length = 18 := by
      simp [List.length_take]; omega
    obtain ⟨fr, hfr⟩ : ∃ fr, decodePayload 2 (List.take 18 (List.take 20 r)) = some fr := by
      simp [decodePayload, FRAME_TYPE_EMG, FRAME_TYPE_IMU, h18]
    split
    · exact ⟨fr, hfr, by simp [hfr]⟩
    · rfl

set_option maxRecDepth 10000 in
/-- Witness for C3, all four cases: the valid EMG frame of C1 rebuilt from
its tail decodes; an all-zero EMG tail is silently consumed; an all-zero
18-byte IMU payload with its correct CRC `0x1F7E` (little-endian `[126, 31]`)
decodes; the same payload with a zeroed CRC is silently consumed. -/
theorem candidate_crc_gate_witness :
    (∃ fr, decodePayload 1
        ((((165 :: 90 :: 1 :: ((encodeEMG 42 1000000 100000 (-50000)).drop 3)).take 19).drop 3).take 14) =
          some fr ∧
      feedLoop (0 + 1) (165 :: 90 :: 1 :: ((encodeEMG 42 1000000 100000 (-50000)).drop 3)) =
        ((feedLoop 0 ((165 :: 90 :: 1 :: ((encodeEMG 42 1000000 100000 (-50000)).drop 3)).drop 19)).1,
         fr :: (feedLoop 0 ((165 :: 90 :: 1 :: ((encodeEMG 42 1000000 100000 (-50000)).drop 3)).drop 19)).2)) ∧
    feedLoop (0 + 1) (165 :: 90 :: 1 :: [0, 0, 0, 0, 0, 0, 0, 0, 0, 0, 0, 0, 0, 0, 0, 0]) =
      feedLoop 0 ((165 :: 90 :: 1 :: [0, 0, 0, 0, 0, 0, 0, 0, 0, 0, 0, 0, 0, 0, 0, 0]).drop 19) ∧
    (∃ fr, decodePayload 2
        ((((165 :: 90 :: 2 ::
            [0, 0, 0, 0, 0, 0, 0, 0, 0, 0, 0, 0, 0, 0, 0, 0, 0, 0, 126, 31]).take 23).drop 3).take 18) =
          some fr ∧
      feedLoop (0 + 1) (165 :: 90 :: 2 ::
          [0, 0, 0, 0, 0, 0, 0, 0, 0, 0, 0, 0, 0, 0, 0, 0, 0, 0, 126, 31]) =
        ((feedLoop 0 ((165 :: 90 :: 2 ::
            [0, 0, 0, 0, 0, 0, 0, 0, 0, 0, 0, 0, 0, 0, 0, 0, 0, 0, 126, 31]).drop 23)).1,
         fr :: (feedLoop 0 ((165 :: 90 :: 2 ::
            [0, 0, 0, 0, 0, 0, 0, 0, 0, 0, 0, 0, 0, 0, 0, 0, 0, 0, 126, 31]).drop 23)).2)) ∧
    feedLoop (0 + 1) (165 :: 90 :: 2 ::
        [0, 0, 0, 0, 0, 0, 0, 0, 0, 0, 0, 0, 0, 0, 0, 0, 0, 0, 0, 0]) =
      feedLoop 0 ((165 :: 90 :: 2 ::
        [0, 0, 0, 0, 0, 0, 0, 0, 0, 0, 0, 0, 0, 0, 0, 0, 0, 0, 0, 0]).drop 23) := by
  refine ⟨?_, ?_, ?_, ?_⟩
  · have h := candidate_crc_gate.1 ((encodeEMG 42 1000000 100000 (-50000)).drop 3) 0 (by decide)
    rw [if_pos (by decide)] at h
    exact h
  · have h := candidate_crc_gate.1 [0, 0, 0, 0, 0, 0, 0, 0, 0, 0, 0, 0, 0, 0, 0, 0] 0 (by decide)
    rw [if_neg (by decide)] at h
    exact h
  · have h := candidate_crc_gate.2
      [0, 0, 0, 0, 0, 0, 0, 0, 0, 0, 0, 0, 0, 0, 0, 0, 0, 0, 126, 31] 0 (by decide)
    rw [if_pos (by decide)] at h
    exact h
  · have h := candidate_crc_gate.2
      [0, 0, 0, 0, 0, 0, 0, 0, 0, 0, 0, 0, 0, 0, 0, 0, 0, 0, 0, 0] 0 (by decide)
    rw [if_neg (by decide)] at h
    exact h

theorem feedLoop_buffer_le (fuel : Nat) : ∀ buf : List Nat, buf.length < fuel →
    ((feedLoop fuel buf).1).length ≤ 22 := by
  induction fuel with
  | zero => intro buf h; exact absurd h (Nat.not_lt_zero _)
  | succ f ih =>
    intro buf hlen
    simp only [feedLoop]
    split
    · next h7 => simpa using by omega
    · next h7 =>
      split
      · simp only [List.length_drop]; omega
      · next idx hfind =>
        split
        · next hb1 => simp only at hb1 ⊢; simp [List.length_drop] at hb1 ⊢; omega
        · next hb1 =>
          split
          · next hps =>
            -- unknown frame type: recurse after dropping two bytes
            apply ih
            simp only [List.length_drop] at *
            omega
          · next ps hps =>
            have hps2 : ps = 14 ∨ ps = 18 := by
              split_ifs at hps with h1 h2
              · exact Or.inl (Option.some.inj hps).symm
              · exact Or.inr (Option.some.inj hps).symm
            split
            · next hlt =>
              simp only [List.length_drop] at hlt ⊢
              omega
            · next hlt =>
              have hrec : ((feedLoop f ((buf.drop idx).drop (2 + 1 + ps + 2))).1).length ≤ 22 := by
                apply ih
                simp only [List.length_drop] at *
                omega
              split
              · split
                · exact hrec
                · exact hrec
              · exact hrec

/-- **C10.** The decoder's internal buffer is bounded: after every `feed`
call, whatever state the decoder was in and whatever bytes are fed, at most
22 bytes remain buffered — strictly less than the 23-byte maximum (IMU) frame
size — so decoder memory never grows with input length. -/
theorem decoder_buffer_bounded (d : FrameDecoder) (data : List Nat) :
    ((d.feed data).1).buffer.length ≤ 22 := by
  simp only [FrameDecoder.feed]
  exact feedLoop_buffer_le _ _ (by omega)

/-! ## Claim theorems for the angle calculator -/

/-- **C4.** After a completed `calibrate_two_points(raw1, ref1, raw2, ref2)`
call with `raw1 ≠ raw2`, the coefficients satisfy
`scale = (ref2 - ref1)/(raw2 - raw1)` and `offset = raw1 - ref1/scale`, and
the calibrated output `(angle - offset) * scale` maps fused angle `raw1` to
`ref1`, `raw2` to `ref2`, and any affine combination accordingly. -/
theorem two_point_calibration (c c' : AngleCalculator) (raw1 ref1 raw2 ref2 : ℚ)
    (hraw : raw1 ≠ raw2)
    (h : calibrate_two_points c raw1 ref1 raw2 ref2 = some c') :
    c'.scale = (ref2 - ref1) / (raw2 - raw1) ∧
    c'.offset = raw1 - ref1 / c'.scale ∧
    calibrated_output c' raw1 = ref1 ∧
    calibrated_output c' raw2 = ref2 ∧
    (∀ t : ℚ, calibrated_output c' ((1 - t) * raw1 + t * raw2) =
      (1 - t) * ref1 + t * ref2) := by
  have hd : raw2 - raw1 ≠ 0 := sub_ne_zero.mpr (Ne.symm hraw)
  simp only [calibrate_two_points, pyDiv, if_neg hd, Option.bind_eq_bind,
    Option.some_bind] at h
  by_cases hs : (ref2 - ref1) / (raw2 - raw1) = 0
  · rw [if_pos hs] at h
    simp at h
  · rw [if_neg hs] at h
    simp only [Option.some_bind, Option.some.injEq] at h
    subst h
    have hr : ref2 - ref1 ≠ 0 := fun he => hs (by rw [he, zero_div])
    refine ⟨rfl, rfl, ?_, ?_, ?_⟩
    · simp only [calibrated_output, if_pos rfl]
      field_simp
    · simp only [calibrated_output, if_pos rfl]
      field_simp
      ring
    · intro t
      simp only [calibrated_output, if_pos rfl]
      field_simp
      ring

/-- Witness for C4: with capture points `(10, 0)` and `(100, 90)` (from the
default state), a raw fused angle of 55 calibrates to 45. -/
theorem two_point_calibration_witness :
    ∃ c' : AngleCalculator,
      calibrate_two_points AngleCalculator.init 10 0 100 90 = some c' ∧
      calibrated_output c' 55 = 45 := by
  have happ : calibrate_two_points AngleCalculator.init 10 0 100 90 =
      some { AngleCalculator.init with
        scale := 1, offset := 10, angle_ref1 := 0, angle_ref2 := 90,
        calibrated := true } := by
    norm_num [calibrate_two_points, pyDiv, AngleCalculator.init]
  refine ⟨_, happ, ?_⟩
  have h := (two_point_calibration AngleCalculator.init _ 10 0 100 90
    (by norm_num) happ).2.2.2.2 (1 / 2)
  norm_num at h
  exact h

/-- **C9.** `calibrate_two_points` divides `ref1` by the computed scale when
deriving the offset, so the call completes exactly when both `raw1 ≠ raw2`
and `ref1 ≠ ref2`; with distinct raw angles but equal reference angles the
scale is 0 and the offset computation divides by zero
(`ZeroDivisionError`, modelled as `none`). -/
theorem two_point_calibration_domain (c : AngleCalculator) (raw1 ref1 raw2 ref2 : ℚ) :
    ((calibrate_two_points c raw1 ref1 raw2 ref2).isSome ↔ raw1 ≠ raw2 ∧ ref1 ≠ ref2) ∧
    (raw1 ≠ raw2 → ref1 = ref2 →
      (ref2 - ref1) / (raw2 - raw1) = 0 ∧
      calibrate_two_points c raw1 ref1 raw2 ref2 = none) := by
  constructor
  · constructor
    · intro hsome
      constructor
      · intro heq
        subst heq
        simp [calibrate_two_points, pyDiv] at hsome
      · intro heq
        have hs0 : (ref2 - ref1) / (raw2 - raw1) = 0 := by
          rw [heq, sub_self, zero_div]
        by_cases hd : raw2 - raw1 = 0
        · simp [calibrate_two_points, pyDiv, hd] at hsome
        · simp [calibrate_two_points, pyDiv, hd, hs0] at hsome
    · rintro ⟨h1, h2⟩
      have hd : raw2 - raw1 ≠ 0 := sub_ne_zero.mpr (Ne.symm h1)
      have hr : ref2 - ref1 ≠ 0 := sub_ne_zero.mpr (Ne.symm h2)
      have hs : (ref2 - ref1) / (raw2 - raw1) ≠ 0 := div_ne_zero hr hd
      simp [calibrate_two_points, pyDiv, hd, hs]
  · intro h1 h2
    have hd : raw2 - raw1 ≠ 0 := sub_ne_zero.mpr (Ne.symm h1)
    have hs : (ref2 - ref1) / (raw2 - raw1) = 0 := by
      rw [h2, sub_self, zero_div]
    exact ⟨hs, by simp [calibrate_two_points, pyDiv, hd, hs]⟩

/-- Witness for C9: with the default state, `(10, 0), (100, 90)` succeeds
while `(10, 5), (100, 5)` (distinct raws, equal references) divides by zero. -/
theorem two_point_calibration_domain_witness :
    (calibrate_two_points AngleCalculator.init 10 0 100 90).isSome ∧
    calibrate_two_points AngleCalculator.init 10 5 100 5 = none :=
  ⟨(two_point_calibration_domain AngleCalculator.init 10 0 100 90).1.mpr
      ⟨by norm_num, by norm_num⟩,
   ((two_point_calibration_domain AngleCalculator.init 10 5 100 5).2
      (by norm_num) rfl).2⟩

/-! ## Claim theorems for the fatigue metrics -/

/-- **C7, counterexample.** The claim promises "only a duration figure
(0 if there is at most 1 sample)" whenever fewer than 32 aligned samples
exist — but with 0 aligned samples (an empty RMS series or time axis, which
the session loader produces for an empty dataset) the code returns an empty
mapping containing no duration entry at all. -/
theorem fatigue_empty_counterexample :
    compute_fatigue_metrics [] [] = [] ∧
    ("duration", (0 : ℚ)) ∉ compute_fatigue_metrics [] [] := by
  refine ⟨rfl, ?_⟩
  simp [compute_fatigue_metrics]

/-- **C7 (amended).** Whenever at least one aligned sample exists and the
aligned length (the minimum of the RMS series length and the time-axis
length) is fewer than 32, the result contains exactly one entry: the
duration — the time span `t[limit-1] - t[0]` of the aligned samples, `0` if
there is exactly 1 aligned sample — and none of the
decline/slope/baseline/tail metrics. -/
theorem fatigue_short_series (rms t_emg : List ℚ) (h1 : rms ≠ []) (h2 : t_emg ≠ [])
    (h3 : min rms.length t_emg.length < 32) :
    compute_fatigue_metrics rms t_emg =
      [("duration",
        if 1 < min rms.length t_emg.length
        then t_emg.getD (min rms.length t_emg.length - 1) 0 - t_emg.getD 0 0
        else 0)] := by
  have h1' : rms.length ≠ 0 := fun h => h1 (List.length_eq_zero.mp h)
  have h2' : t_emg.length ≠ 0 := fun h => h2 (List.length_eq_zero.mp h)
  simp only [compute_fatigue_metrics]
  rw [if_neg (by simp [h1', h2']), if_pos h3]

/-- Witness for C7: two aligned samples over the time axis `[0, 3]` produce
exactly `[("duration", 3)]`. -/
theorem fatigue_short_series_witness :
    compute_fatigue_metrics [1, 2] [0, 3] = [("duration", 3)] := by
  rw [fatigue_short_series [1, 2] [0, 3] (by simp) (by simp) (by norm_num)]
  norm_num

/-! ## Claim theorems for the pose angle -/

/-- **C8, counterexample.** The claim says the angle is *zeroed* whenever
either vector's magnitude is below `1e-6`; in the code the function returns
`None` in that case (the capture attempt is then abandoned), not the angle
`0`: with hip = knee the hip−knee vector is zero and the result is `None`,
not `Some 0`. -/
theorem pose_angle_degenerate_counterexample :
    calculate_pose_angle ⟨0, 0, 0⟩ ⟨0, 0, 0⟩ ⟨0, 0, 1⟩ = none ∧
    calculate_pose_angle ⟨0, 0, 0⟩ ⟨0, 0, 0⟩ ⟨0, 0, 1⟩ ≠ some 0 := by
  have hz : npNorm (Landmark.sub ⟨0, 0, 0⟩ ⟨0, 0, 0⟩) = 0 := by
    simp [npNorm, Landmark.sub]
  have h : calculate_pose_angle ⟨0, 0, 0⟩ ⟨0, 0, 0⟩ ⟨0, 0, 1⟩ = none := by
    simp only [calculate_pose_angle]
    rw [if_pos (Or.inl (by rw [hz]; norm_num))]
  exact ⟨h, by rw [h]; exact fun hco => Option.noConfusion hco⟩

/-- **C8 (amended).** For every triple of hip/knee/ankle landmark positions:
when either of the vectors hip−knee, ankle−knee has magnitude below `1e-6`
the pose angle is *undefined* (`None` — the capture attempt is abandoned),
not zero; otherwise the angle is
`180° − degrees(arccos((hip−knee)·(ankle−knee) / (|hip−knee| |ankle−knee|)))`
(the clip of the cosine to `[−1, 1]` never acts, by Cauchy–Schwarz) and the
result always lies in `[0°, 180°]`. -/
theorem pose_angle_spec (hip knee ankle : Landmark) :
    (npNorm (hip.sub knee) < 1 / 1000000 ∨ npNorm (ankle.sub knee) < 1 / 1000000 →
      calculate_pose_angle hip knee ankle = none) ∧
    (1 / 1000000 ≤ npNorm (hip.sub knee) → 1 / 1000000 ≤ npNorm (ankle.sub knee) →
      calculate_pose_angle hip knee ankle =
        some (180 - Real.arccos (npDot (hip.sub knee) (ankle.sub knee) /
          (npNorm (hip.sub knee) * npNorm (ankle.sub knee))) * (180 / Real.pi)) ∧
      (∀ r, calculate_pose_angle hip knee ankle = some r → 0 ≤ r ∧ r ≤ 180)) := by
  constructor
  · intro h
    simp only [calculate_pose_angle]
    rw [if_pos h]
  · intro hn1 hn2
    set v1 := hip.sub knee with hv1
    set v2 := ankle.sub knee with hv2
    have hpos1 : 0 < npNorm v1 := lt_of_lt_of_le (by norm_num) hn1
    have hpos2 : 0 < npNorm v2 := lt_of_lt_of_le (by norm_num) hn2
    have hpos : 0 < npNorm v1 * npNorm v2 := mul_pos hpos1 hpos2
    have hsq1 : npNorm v1 ^ 2 = v1.x ^ 2 + v1.y ^ 2 + v1.z ^ 2 := by
      rw [npNorm, Real.sq_sqrt] ; positivity
    have hsq2 : npNorm v2 ^ 2 = v2.x ^ 2 + v2.y ^ 2 + v2.z ^ 2 := by
      rw [npNorm, Real.sq_sqrt] ; positivity
    have hcs : npDot v1 v2 ^ 2 ≤ (npNorm v1 * npNorm v2) ^ 2 := by
      rw [mul_pow, hsq1, hsq2, npDot]
      nlinarith [sq_nonneg (v1.x * v2.y - v1.y * v2.x),
        sq_nonneg (v1.x * v2.z - v1.z * v2.x),
        sq_nonneg (v1.y * v2.z - v1.z * v2.y)]
    have hub : npDot v1 v2 ≤ npNorm v1 * npNorm v2 := by nlinarith
    have hlb : -(npNorm v1 * npNorm v2) ≤ npDot v1 v2 := by nlinarith
    set c := npDot v1 v2 / (npNorm v1 * npNorm v2) with hc
    have hc1 : c ≤ 1 := by
      rw [hc, div_le_one hpos]; exact hub
    have hcm1 : -1 ≤ c := by
      rw [hc, le_div_iff₀ hpos]; linarith
    have hclip : min 1 (max (-1) c) = c := by
      rw [max_eq_right hcm1, min_eq_right hc1]
    have hcos_mem : Real.arccos c ≤ Real.pi := Real.arccos_le_pi c
    have hcos_nn : 0 ≤ Real.arccos c := Real.arccos_nonneg c
    have hpi : (0 : ℝ) < 180 / Real.pi := by positivity
    have hinner_le : Real.arccos c * (180 / Real.pi) ≤ 180 := by
      calc Real.arccos c * (180 / Real.pi) ≤ Real.pi * (180 / Real.pi) :=
            mul_le_mul_of_nonneg_right hcos_mem (le_of_lt hpi)
        _ = 180 := by field_simp
    have hinner_nn : 0 ≤ Real.arccos c * (180 / Real.pi) :=
      mul_nonneg hcos_nn (le_of_lt hpi)
    have hmax : max 0 (180 - Real.arccos c * (180 / Real.pi)) =
        180 - Real.arccos c * (180 / Real.pi) :=
      max_eq_right (by linarith)
    have hne : ¬ (npNorm v1 < 1 / 1000000 ∨ npNorm v2 < 1 / 1000000) := by
      push_neg
      exact ⟨hn1, hn2⟩
    have heq : calculate_pose_angle hip knee ankle =
        some (180 - Real.arccos c * (180 / Real.pi)) := by
      simp only [calculate_pose_angle]
      rw [if_neg hne, hclip, hmax]
    refine ⟨heq, ?_⟩
    intro r hr
    rw [heq] at hr
    have : r = 180 - Real.arccos c * (180 / Real.pi) := (Option.some.inj hr).symm
    subst this
    constructor <;> linarith

/-- Witness for C8: a degenerate triple (hip = knee) yields `none`; the
right-angle triple `(0,1,0), (0,0,0), (0,0,1)` yields exactly 90°. -/
theorem pose_angle_spec_witness :
    calculate_pose_angle ⟨0, 0, 0⟩ ⟨0, 0, 0⟩ ⟨0, 0, 1⟩ = none ∧
    calculate_pose_angle ⟨0, 1, 0⟩ ⟨0, 0, 0⟩ ⟨0, 0, 1⟩ = some 90 := by
  constructor
  · apply (pose_angle_spec ⟨0, 0, 0⟩ ⟨0, 0, 0⟩ ⟨0, 0, 1⟩).1
    left
    simp [npNorm, Landmark.sub]
  · have hn1 : 1 / 1000000 ≤ npNorm (Landmark.sub ⟨0, 1, 0⟩ ⟨0, 0, 0⟩) := by
      have : npNorm (Landmark.sub ⟨0, 1, 0⟩ ⟨0, 0, 0⟩) = 1 := by
        simp [npNorm, Landmark.sub]
      rw [this]; norm_num
    have hn2 : 1 / 1000000 ≤ npNorm (Landmark.sub ⟨0, 0, 1⟩ ⟨0, 0, 0⟩) := by
      have : npNorm (Landmark.sub ⟨0, 0, 1⟩ ⟨0, 0, 0⟩) = 1 := by
        simp [npNorm, Landmark.sub]
      rw [this]; norm_num
    have h := ((pose_angle_spec ⟨0, 1, 0⟩ ⟨0, 0, 0⟩ ⟨0, 0, 1⟩).2 hn1 hn2).1
    rw [h]
    have hdot : npDot (Landmark.sub ⟨0, 1, 0⟩ ⟨0, 0, 0⟩) (Landmark.sub ⟨0, 0, 1⟩ ⟨0, 0, 0⟩) = 0 := by
      simp [npDot, Landmark.sub]
    rw [hdot, zero_div, Real.arccos_zero]
    congr 1
    have hpi := Real.pi_ne_zero
    field_simp
    ring

/-! ## Claim theorems for the configuration store -/

theorem lookupS_insertS_self (st : Settings) (k : String) (v : PyVal) :
    lookupS (insertS st k v) k = some v := by
  induction st with
  | nil => simp [insertS, lookupS]
  | cons kv rest ih =>
    obtain ⟨k2, v2⟩ := kv
    by_cases h : k2 = k
    · simp [insertS, lookupS, h]
    · simp [insertS, lookupS, h, ih]

theorem lookupS_insertS_ne (st : Settings) (k k2 : String) (v : PyVal) (h : k ≠ k2) :
    lookupS (insertS st k v) k2 = lookupS st k2 := by
  induction st with
  | nil => simp [insertS, lookupS, h]
  | cons kv rest ih =>
    obtain ⟨k3, v3⟩ := kv
    by_cases h3 : k3 = k
    · subst h3
      simp [insertS, lookupS, h]
    · simp [insertS, lookupS, h3, ih]

theorem compute_derived_eq_some (st0 st : Settings) (h : compute_derived st0 = some st) :
    ∃ fs ms fps wt ifs : ℚ,
      (lookupS st0 "EMG_FS").bind asRat = some fs ∧
      (lookupS st0 "RMS_WINDOW_MS").bind asRat = some ms ∧
      (lookupS st0 "UPDATE_FPS").bind asRat = some fps ∧
      (lookupS st0 "WINDOW_TIME_SEC").bind asRat = some wt ∧
      (lookupS st0 "IMU_FS").bind asRat = some ifs ∧
      st = insertS (insertS (insertS (insertS st0
        "RMS_WINDOW_SAMPLES" (.int (ratTrunc (fs * ms / 1000))))
        "UPDATE_INTERVAL_MS" (.int (ratTrunc (1000 / max 1 fps))))
        "EMG_BUFFER_SIZE" (.int (ratTrunc (fs * wt))))
        "IMU_BUFFER_SIZE" (.int (ratTrunc (ifs * wt))) := by
  cases hA : (lookupS st0 "EMG_FS").bind asRat with
  | none => simp [compute_derived, hA] at h
  | some fs =>
  cases hB : (lookupS st0 "RMS_WINDOW_MS").bind asRat with
  | none => simp [compute_derived, hA, hB] at h
  | some ms =>
  cases hC : (lookupS st0 "UPDATE_FPS").bind asRat with
  | none => simp [compute_derived, hA, hB, hC] at h
  | some fps =>
  cases hD : (lookupS st0 "WINDOW_TIME_SEC").bind asRat with
  | none => simp [compute_derived, hA, hB, hC, hD] at h
  | some wt =>
  cases hE : (lookupS st0 "IMU_FS").bind asRat with
  | none => simp [compute_derived, hA, hB, hC, hD, hE] at h
  | some ifs =>
    simp only [compute_derived, hA, hB, hC, hD, hE, Option.bind_eq_bind,
      Option.some_bind, Option.some.injEq] at h
    exact ⟨fs, ms, fps, wt, ifs, rfl, rfl, rfl, rfl, rfl, h.symm⟩

theorem ratTrunc_eq_floor (q : ℚ) (h : 0 ≤ q) : ratTrunc q = ⌊q⌋ := by
  rw [ratTrunc, if_neg (not_lt.mpr h)]


theorem compute_derived_spec (st0 st : Settings) (h : compute_derived st0 = some st)
    (fs ms fps wt ifs : ℚ)
    (hfs : (lookupS st "EMG_FS").bind asRat = some fs)
    (hms : (lookupS st "RMS_WINDOW_MS").bind asRat = some ms)
    (hfps : (lookupS st "UPDATE_FPS").bind asRat = some fps)
    (hwt : (lookupS st "WINDOW_TIME_SEC").bind asRat = some wt)
    (hifs : (lookupS st "IMU_FS").bind asRat = some ifs)
    (hfs0 : 0 < fs) (hms0 : 0 < ms) (hwt0 : 0 < wt) (hifs0 : 0 < ifs) :
    lookupS st "RMS_WINDOW_SAMPLES" = some (.int ⌊fs * ms / 1000⌋) ∧
    lookupS st "UPDATE_INTERVAL_MS" = some (.int ⌊1000 / max 1 fps⌋) ∧
    lookupS st "EMG_BUFFER_SIZE" = some (.int ⌊fs * wt⌋) ∧
    lookupS st "IMU_BUFFER_SIZE" = some (.int ⌊ifs * wt⌋) := by
  obtain ⟨fs0, ms0, fps0, wt0, ifs0, hA, hB, hC, hD, hE, hst⟩ :=
    compute_derived_eq_some st0 st h
  subst hst
  -- the inputs read back from the updated record are the inputs of `st0`
  have rfs : (lookupS st0 "EMG_FS").bind asRat = some fs := by
    rw [← hfs, lookupS_insertS_ne _ _ _ _ (by decide), lookupS_insertS_ne _ _ _ _ (by decide),
      lookupS_insertS_ne _ _ _ _ (by decide), lookupS_insertS_ne _ _ _ _ (by decide)]
  have rms : (lookupS st0 "RMS_WINDOW_MS").bind asRat = some ms := by
    rw [← hms, lookupS_insertS_ne _ _ _ _ (by decide), lookupS_insertS_ne _ _ _ _ (by decide),
      lookupS_insertS_ne _ _ _ _ (by decide), lookupS_insertS_ne _ _ _ _ (by decide)]
  have rfps : (lookupS st0 "UPDATE_FPS").bind asRat = some fps := by
    rw [← hfps, lookupS_insertS_ne _ _ _ _ (by decide), lookupS_insertS_ne _ _ _ _ (by decide),
      lookupS_insertS_ne _ _ _ _ (by decide), lookupS_insertS_ne _ _ _ _ (by decide)]
  have rwt : (lookupS st0 "WINDOW_TIME_SEC").bind asRat = some wt := by
    rw [← hwt, lookupS_insertS_ne _ _ _ _ (by decide), lookupS_insertS_ne _ _ _ _ (by decide),
      lookupS_insertS_ne _ _ _ _ (by decide), lookupS_insertS_ne _ _ _ _ (by decide)]
  have rifs : (lookupS st0 "IMU_FS").bind asRat = some ifs := by
    rw [← hifs, lookupS_insertS_ne _ _ _ _ (by decide), lookupS_insertS_ne _ _ _ _ (by decide),
      lookupS_insertS_ne _ _ _ _ (by decide), lookupS_insertS_ne _ _ _ _ (by decide)]
  have efs : fs0 = fs := by rw [hA] at rfs; exact Option.some.inj rfs
  have ems : ms0 = ms := by rw [hB] at rms; exact Option.some.inj rms
  have efps : fps0 = fps := by rw [hC] at rfps; exact Option.some.inj rfps
  have ewt : wt0 = wt := by rw [hD] at rwt; exact Option.some.inj rwt
  have eifs : ifs0 = ifs := by rw [hE] at rifs; exact Option.some.inj rifs
  subst efs; subst ems; subst efps; subst ewt; subst eifs
  refine ⟨?_, ?_, ?_, ?_⟩
  · rw [lookupS_insertS_ne _ _ _ _ (by decide), lookupS_insertS_ne _ _ _ _ (by decide),
      lookupS_insertS_ne _ _ _ _ (by decide), lookupS_insertS_self,
      ratTrunc_eq_floor _ (by positivity)]
  · rw [lookupS_insertS_ne _ _ _ _ (by decide), lookupS_insertS_ne _ _ _ _ (by decide),
      lookupS_insertS_self, ratTrunc_eq_floor _ (by positivity)]
  · rw [lookupS_insertS_ne _ _ _ _ (by decide), lookupS_insertS_self,
      ratTrunc_eq_floor _ (by positivity)]
  · rw [lookupS_insertS_self, ratTrunc_eq_floor _ (by positivity)]


/-- **C6.** Every settings record produced by `load_settings`,
`update_settings` or `reset_to_defaults` has its derived keys recomputed from
its non-derived inputs: with positive numeric inputs,
`RMS_WINDOW_SAMPLES = ⌊EMG_FS * RMS_WINDOW_MS / 1000⌋`,
`UPDATE_INTERVAL_MS = ⌊1000 / max 1 UPDATE_FPS⌋`,
`EMG_BUFFER_SIZE = ⌊EMG_FS * WINDOW_TIME_SEC⌋` and
`IMU_BUFFER_SIZE = ⌊IMU_FS * WINDOW_TIME_SEC⌋` — the derived values never
disagree with the inputs stored in the same record. -/
theorem derived_keys_consistent (st : Settings)
    (hprod : (∃ d, load_settings d = some st) ∨
             (∃ st0 nv, update_settings st0 nv = .ok st) ∨
             reset_to_defaults = some st)
    (fs ms fps wt ifs : ℚ)
    (hfs : (lookupS st "EMG_FS").bind asRat = some fs)
    (hms : (lookupS st "RMS_WINDOW_MS").bind asRat = some ms)
    (hfps : (lookupS st "UPDATE_FPS").bind asRat = some fps)
    (hwt : (lookupS st "WINDOW_TIME_SEC").bind asRat = some wt)
    (hifs : (lookupS st "IMU_FS").bind asRat = some ifs)
    (hfs0 : 0 < fs) (hms0 : 0 < ms) (hwt0 : 0 < wt) (hifs0 : 0 < ifs) :
    lookupS st "RMS_WINDOW_SAMPLES" = some (.int ⌊fs * ms / 1000⌋) ∧
    lookupS st "UPDATE_INTERVAL_MS" = some (.int ⌊1000 / max 1 fps⌋) ∧
    lookupS st "EMG_BUFFER_SIZE" = some (.int ⌊fs * wt⌋) ∧
    lookupS st "IMU_BUFFER_SIZE" = some (.int ⌊ifs * wt⌋) := by
  have hcd : ∃ st0, compute_derived st0 = some st := by
    rcases hprod with ⟨d, hd⟩ | ⟨st0, nv, hu⟩ | hr
    · exact ⟨_, hd⟩
    · cases happ : apply_updates st0 nv with
      | error m => simp [update_settings, happ, Bind.bind, Except.bind] at hu
      | ok u =>
        cases hcd : compute_derived u with
        | none => simp [update_settings, happ, Bind.bind, Except.bind, hcd] at hu
        | some final =>
          have : final = st := by
            simpa [update_settings, happ, Bind.bind, Except.bind, hcd] using hu
          exact ⟨u, this ▸ hcd⟩
    · exact ⟨_, hr⟩
  obtain ⟨st0, hcd⟩ := hcd
  exact compute_derived_spec st0 st hcd fs ms fps wt ifs hfs hms hfps hwt hifs
    hfs0 hms0 hwt0 hifs0


theorem derived_keys_consistent_witness :
    ∃ st : Settings,
      update_settings [("EMG_FS", .float 1000), ("RMS_WINDOW_MS", .int 100),
        ("UPDATE_FPS", .int 25), ("WINDOW_TIME_SEC", .float 2), ("IMU_FS", .int 50)]
        [] = .ok st ∧
      lookupS st "RMS_WINDOW_SAMPLES" = some (.int 100) ∧
      lookupS st "UPDATE_INTERVAL_MS" = some (.int 40) ∧
      lookupS st "EMG_BUFFER_SIZE" = some (.int 2000) ∧
      lookupS st "IMU_BUFFER_SIZE" = some (.int 100) := by
  refine ⟨_, rfl, ?_⟩
  have h := derived_keys_consistent _
    (Or.inr (Or.inl ⟨[("EMG_FS", .float 1000), ("RMS_WINDOW_MS", .int 100),
      ("UPDATE_FPS", .int 25), ("WINDOW_TIME_SEC", .float 2), ("IMU_FS", .int 50)], [], rfl⟩))
    1000 100 25 2 50 rfl rfl rfl rfl rfl
    (by norm_num) (by norm_num) (by norm_num) (by norm_num)
  obtain ⟨h1, h2, h3, h4⟩ := h
  rw [h1, h2, h3, h4]
  norm_num


theorem apply_updates_error :
    ∀ (nv : List (String × PyVal)) (st : Settings),
      (∃ kv ∈ nv, isSettingsKey kv.1 = true ∧ isDerivedKey kv.1 = false ∧
        ∃ m, coerce_value kv.1 kv.2 = .error m) →
      ∃ msg, apply_updates st nv = .error msg
  | [], _, h => by simp at h
  | (k, v) :: rest, st, h => by
    by_cases hk : isSettingsKey k = false ∧ isDerivedKey k = false
    · -- unknown key: skipped
      have hmem : ∃ kv ∈ rest, isSettingsKey kv.1 = true ∧ isDerivedKey kv.1 = false ∧
          ∃ m, coerce_value kv.1 kv.2 = .error m := by
        obtain ⟨kv, hkv, h1, h2, h3⟩ := h
        rcases List.mem_cons.mp hkv with rfl | hkv2
        · rw [hk.1] at h1; exact absurd h1 (by simp)
        · exact ⟨kv, hkv2, h1, h2, h3⟩
      obtain ⟨msg, hmsg⟩ := apply_updates_error rest st hmem
      exact ⟨msg, by simp [apply_updates, hk, hmsg]⟩
    · by_cases hd : isDerivedKey k = true
      · -- derived key: skipped
        have hmem : ∃ kv ∈ rest, isSettingsKey kv.1 = true ∧ isDerivedKey kv.1 = false ∧
            ∃ m, coerce_value kv.1 kv.2 = .error m := by
          obtain ⟨kv, hkv, h1, h2, h3⟩ := h
          rcases List.mem_cons.mp hkv with rfl | hkv2
          · rw [hd] at h2; exact absurd h2 (by simp)
          · exact ⟨kv, hkv2, h1, h2, h3⟩
        obtain ⟨msg, hmsg⟩ := apply_updates_error rest st hmem
        exact ⟨msg, by simp [apply_updates, hk, hd, hmsg]⟩
      · -- recognized, non-derived key: coerced
        have hdf : isDerivedKey k = false := by
          cases hdk : isDerivedKey k
          · rfl
          · exact absurd hdk hd
        have hkt : isSettingsKey k = true := by
          cases hks : isSettingsKey k
          · exact absurd ⟨hks, hdf⟩ hk
          · rfl
        cases hcv : coerce_value k v with
        | error m =>
          exact ⟨"Valor inválido para " ++ k ++ ": " ++ m,
            by simp [apply_updates, hkt, hdf, hcv]⟩
        | ok c =>
          have hmem : ∃ kv ∈ rest, isSettingsKey kv.1 = true ∧ isDerivedKey kv.1 = false ∧
              ∃ m, coerce_value kv.1 kv.2 = .error m := by
            obtain ⟨kv, hkv, h1, h2, h3⟩ := h
            rcases List.mem_cons.mp hkv with rfl | hkv2
            · obtain ⟨m, hm⟩ := h3
              rw [hcv] at hm
              exact absurd hm (by simp)
            · exact ⟨kv, hkv2, h1, h2, h3⟩
          obtain ⟨msg, hmsg⟩ := apply_updates_error rest (insertS st k c) hmem
          exact ⟨msg, by simp [apply_updates, hkt, hdf, hcv, hmsg]⟩


theorem mapIntAll_pyToInt_map_int :
    ∀ ns : List Int, mapIntAll pyToInt (ns.map PyVal.int) = some ns
  | [] => rfl
  | n :: ns => by
    simp [mapIntAll, pyToInt, mapIntAll_pyToInt_map_int ns]

/-- **C5.** `update_settings`: (1) a key that is neither a known setting nor
a derived key is silently ignored; (2) if any single supplied value fails its
schema coercion the whole call fails with a "Valor inválido" error and the
in-memory record is left unchanged — no key of the batch is applied; (3) a
non-3-element value for a `color` parameter is such a failure; (4) a list
value for the `bytes`-typed preamble is stored with every element masked to
0-255, so `[0xA5, 0x5A]` is stored exactly as `[165, 90]` (5) including
through a full successful `update_settings` call. -/
theorem update_settings_validation :
    (∀ (st : Settings) (k : String) (v : PyVal) (rest : List (String × PyVal)),
      isSettingsKey k = false → isDerivedKey k = false →
      update_settings st ((k, v) :: rest) = update_settings st rest) ∧
    (∀ (st : Settings) (nv : List (String × PyVal)),
      (∃ kv ∈ nv, isSettingsKey kv.1 = true ∧ isDerivedKey kv.1 = false ∧
        ∃ m, coerce_value kv.1 kv.2 = .error m) →
      ∃ msg, update_settings_state st nv = (st, some msg)) ∧
    (∀ xs : List PyVal, xs.length ≠ 3 →
      ∃ m, coerce_value "COLOR_CH0" (.list xs) = .error m) ∧
    (∀ ns : List Int, coerce_value "PREAMBLE" (.list (ns.map PyVal.int)) =
      .ok (.list (ns.map (fun n => PyVal.int (Int.land n 0xFF))))) ∧
    (∀ (st st2 : Settings),
      update_settings st [("PREAMBLE", .list [.int 0xA5, .int 0x5A])] = .ok st2 →
      lookupS st2 "PREAMBLE" = some (.list [.int 0xA5, .int 0x5A])) := by
  refine ⟨?_, ?_, ?_, ?_, ?_⟩
  · intro st k v rest h1 h2
    simp [update_settings, apply_updates, h1, h2]
  · intro st nv h
    obtain ⟨msg, hmsg⟩ := apply_updates_error nv st h
    exact ⟨msg, by simp [update_settings_state, update_settings, Bind.bind, Except.bind, hmsg]⟩
  · intro xs h
    have hsch : schemaType "COLOR_CH0" = some "color" := rfl
    simp [coerce_value, hsch, coerceColor, h]
  · intro ns
    have hsch : schemaType "PREAMBLE" = some "bytes" := rfl
    simp [coerce_value, hsch, coerceBytesList, mapIntAll_pyToInt_map_int ns]
  · intro st st2 h
    have hsch : schemaType "PREAMBLE" = some "bytes" := rfl
    have h165 : Int.land 165 255 = 165 := by decide
    have h90 : Int.land 90 255 = 90 := by decide
    have hco : coerce_value "PREAMBLE" (.list [.int 0xA5, .int 0x5A]) =
        .ok (.list [.int 0xA5, .int 0x5A]) := by
      have := mapIntAll_pyToInt_map_int [0xA5, 0x5A]
      simp only [List.map_cons, List.map_nil] at this
      simp [coerce_value, hsch, coerceBytesList, this, h165, h90]
    have hkt : isSettingsKey "PREAMBLE" = true := rfl
    have hdf : isDerivedKey "PREAMBLE" = false := rfl
    have happ : apply_updates st [("PREAMBLE", .list [.int 0xA5, .int 0x5A])] =
        .ok (insertS st "PREAMBLE" (.list [.int 0xA5, .int 0x5A])) := by
      simp [apply_updates, hkt, hdf, hco]
    cases hcd : compute_derived (insertS st "PREAMBLE" (.list [.int 0xA5, .int 0x5A])) with
    | none => simp [update_settings, happ, Bind.bind, Except.bind, hcd] at h
    | some final =>
      have hfin : final = st2 := by
        simpa [update_settings, happ, Bind.bind, Except.bind, hcd] using h
      subst hfin
      obtain ⟨fs, ms, fps, wt, ifs, _, _, _, _, _, hst⟩ :=
        compute_derived_eq_some _ _ hcd
      subst hst
      rw [lookupS_insertS_ne _ _ _ _ (by decide), lookupS_insertS_ne _ _ _ _ (by decide),
        lookupS_insertS_ne _ _ _ _ (by decide), lookupS_insertS_ne _ _ _ _ (by decide),
        lookupS_insertS_self]

/-- Witness for C5: an unknown key is dropped; a 4-element color batch fails
atomically on the default record; the preamble example stores `[165, 90]`. -/
theorem update_settings_validation_witness :
    update_settings DEFAULT_SETTINGS [("BOGUS_KEY", .int 1)] =
      update_settings DEFAULT_SETTINGS [] ∧
    (∃ msg, update_settings_state DEFAULT_SETTINGS
      [("COLOR_CH0", .list [.int 1, .int 2, .int 3, .int 4])] =
        (DEFAULT_SETTINGS, some msg)) ∧
    (∃ m, coerce_value "COLOR_CH0" (.list [.int 1, .int 2, .int 3, .int 4]) = .error m) ∧
    coerce_value "PREAMBLE" (.list [.int 0xA5, .int 0x5A]) =
      .ok (.list [.int 0xA5, .int 0x5A]) ∧
    (∀ st2 : Settings,
      update_settings DEFAULT_SETTINGS
        [("PREAMBLE", .list [.int 0xA5, .int 0x5A])] = .ok st2 →
      lookupS st2 "PREAMBLE" = some (.list [.int 0xA5, .int 0x5A])) := by
  refine ⟨?_, ?_, ?_, ?_, ?_⟩
  · exact update_settings_validation.1 DEFAULT_SETTINGS "BOGUS_KEY" (.int 1) [] rfl rfl
  · exact update_settings_validation.2.1 DEFAULT_SETTINGS _
      ⟨("COLOR_CH0", .list [.int 1, .int 2, .int 3, .int 4]), by simp, rfl, rfl, _, rfl⟩
  · exact update_settings_validation.2.2.1 [.int 1, .int 2, .int 3, .int 4] (by norm_num)
  · have h := update_settings_validation.2.2.2.1 [0xA5, 0x5A]
    simpa [show Int.land 165 255 = 165 by decide,
      show Int.land 90 255 = 90 by decide] using h
  · intro st2 h
    exact update_settings_validation.2.2.2.2 DEFAULT_SETTINGS st2 h
